import Mathlib

/-!
Verification of the TravelAgentic trip-planning orchestration engine
(packages/langgraph/travel_graphs).  The file shallowly embeds the relevant
parts of orchestrator_graph.py and performance_optimizations.py and proves
theorems about budget classification, the booking escalation chain, the
level-4 safety checkpoint, the snapshot/backtrack subsystem, the cross-agent
filter pipeline, the combination generator, the parallel search coordinator
and automation-level routing.

Modelling conventions:
* Python floats are embedded as exact rationals (Rat); binary rounding of
  float literals such as 1.05 is not modelled.
* Python dict reads with defaults, d.get(k, v), are embedded as Option
  fields read with Option.getD; key-presence tests become Option matches.
* Python string comparison is code-point lexicographic and is embedded on
  the underlying character lists.
* The mutable dict objects whose identity matters to the snapshot subsystem
  (preferences, cart, agent status, agent communications) are embedded as
  addresses into an explicit heap, so deep copies and aliasing are visible.
* list.sort(key=...) in CPython is a stable sort; it is embedded as a stable
  insertion sort (pySort), which computes the same list as any stable sort
  for the same order.
* async functions have no observable concurrency in the modelled fragments;
  they are embedded as pure functions, with call traces recorded where a
  claim is about which calls happen.
-/

/-- Lexicographic code-point comparison of character lists: the semantics of
the Python string < operator. -/
def pyStrLtChars : List Char → List Char → Bool
  | [], [] => false
  | [], _ :: _ => true
  | _ :: _, [] => false
  | a :: as, b :: bs =>
    if a.val < b.val then true
    else if b.val < a.val then false
    else pyStrLtChars as bs

/-- Python string comparison s1 < s2 (String.lt does not reduce in the
kernel, so it is recomputed on the character lists). -/
def pyStrLt (a b : String) : Bool :=
  pyStrLtChars a.data b.data

/-- Truthiness of an optional Python string: None and the empty string are
falsy. -/
def pyStrTruthy : Option String → Bool
  | none => false
  | some s => s != ""

/-- Truthiness of an optional Python bool: an absent key is falsy. -/
def pyBoolTruthy : Option Bool → Bool
  | none => false
  | some b => b

/-- Stable insertion of x into a list sorted by le: x goes after every
element y with le y x, so elements that tie with x keep their original
relative order. -/
def insertSorted {α : Type} (le : α → α → Bool) (x : α) : List α → List α
  | [] => [x]
  | y :: ys => if le y x then y :: insertSorted le x ys else x :: y :: ys

/-- Stable sort embedding CPython list.sort(key=...): fold stable insertion
over the list from the left.  A stable sort for a total preorder is unique,
so this computes exactly the list the source's sort produces. -/
def pySort {α : Type} (le : α → α → Bool) (l : List α) : List α :=
  l.foldl (fun acc x => insertSorted le x acc) []

/-! ## Budget compliance (`_analyze_budget_compliance`, orchestrator_graph.py:2852-2874) -/

/-- Result of `_analyze_budget_compliance`.  The formatted message string is
elided; the classification and the numeric fields are kept. -/
structure BudgetAnalysis : Type where
  status : String
  total_cost : Rat
  budget : Rat
  difference : Rat
  percentage_of_budget : Rat
deriving DecidableEq

/-- Embedding of `_analyze_budget_compliance`. -/
def analyze_budget_compliance (total_cost budget : Rat) : BudgetAnalysis :=
  let status :=
    if total_cost ≤ budget then "within_budget"
    else if total_cost ≤ budget * 1.05 then "slightly_over"
    else if total_cost ≤ budget * 1.15 then "moderately_over"
    else "significantly_over"
  { status := status
    total_cost := total_cost
    budget := budget
    difference := total_cost - budget
    percentage_of_budget := if budget > 0 then total_cost / budget * 100 else 0 }

/-! ## Automation-level routing (`_route_by_automation_level`, orchestrator_graph.py:2035-2049) -/

/-- Embedding of `_route_by_automation_level`: the if/elif chain over the
state's automation_level, defaulting to the manual branch. -/
def route_by_automation_level (automation_level : Int) : String :=
  if automation_level = 1 then "level_1"
  else if automation_level = 2 then "level_2"
  else if automation_level = 3 then "level_3"
  else if automation_level = 4 then "level_4"
  else "level_1"

/-! ## Booking escalation (`_book_with_fallback`, orchestrator_graph.py:3067-3156) -/

/-- Outcome of one call to a booking backend (`_book_via_primary_api` and
friends): the call can raise, or return a result dict with a success flag and
a confirmation number. -/
inductive CallOutcome : Type where
  | raised : CallOutcome
  | result (success : Bool) (confirmation : String) : CallOutcome
deriving DecidableEq

/-- Whether the call returned a dict with success True. -/
def CallOutcome.isSuccess : CallOutcome → Bool
  | .result true _ => true
  | _ => false

/-- The confirmation_number of a returned result dict. -/
def CallOutcome.confirmationNumber : CallOutcome → String
  | .result _ c => c
  | .raised => ""

/-- Stubs for the four booking backends used by `_book_with_fallback`; the
primary-API stub is indexed by the retry attempt (0, 1, 2). -/
structure BookingStubs : Type where
  primary : Nat → CallOutcome
  secondary : CallOutcome
  browser : CallOutcome
  voice : CallOutcome

/-- The slice of a cart item dict read by `_book_with_fallback`,
`_generate_manual_booking_suggestions` and `_perform_safety_checkpoint`. -/
structure BookingItem : Type where
  name : Option String
  airline : Option String
  price : Option Rat
  total_cost : Option Rat
deriving DecidableEq

/-- Embedding of `_generate_manual_booking_suggestions`
(orchestrator_graph.py:3249-3278). -/
def generate_manual_booking_suggestions (item_type : String)
    (item_data : BookingItem) : List String :=
  if item_type = "flights" then
    ["Visit " ++ item_data.airline.getD "" ++ " official website for direct booking",
     "Call airline reservation line for phone booking",
     "Use travel agent for complex itinerary booking",
     "Check alternative airlines for similar routes"]
  else if item_type = "hotels" then
    ["Visit " ++ item_data.name.getD "" ++ " official website for direct booking",
     "Call hotel directly for phone reservation",
     "Use booking platforms like Booking.com or Expedia",
     "Check for alternative hotels in the same area"]
  else if item_type = "activities" then
    ["Search for " ++ item_data.name.getD "" ++ " tour operators online",
     "Contact local tourism office for recommendations",
     "Use activity booking platforms like Viator or GetYourGuide",
     "Book directly with activity provider"]
  else []

/-- The result dict of `_book_with_fallback`: on success {status, method,
confirmation, attempts} (backend detail dict elided); on exhaustion the
layer-5 manual-intervention record with its suggested actions. -/
structure BookingResult : Type where
  status : String
  method : String
  confirmation : Option String
  attempts : Nat
  error : Option String
  suggested_actions : List String
deriving DecidableEq

/-- A success result of `_book_with_fallback` (the four success branches
build the same dict shape). -/
def mkBookingSuccess (method confirmation : String) (attempts : Nat) : BookingResult :=
  { status := "success"
    method := method
    confirmation := some confirmation
    attempts := attempts
    error := none
    suggested_actions := [] }

/-- The layer-5 manual-intervention record of `_book_with_fallback`. -/
def manualRequired (item_type : String) (item_data : BookingItem) : BookingResult :=
  { status := "failed"
    method := "manual_required"
    confirmation := none
    attempts := 0
    error := some ("All automated booking methods failed for " ++ item_type)
    suggested_actions := generate_manual_booking_suggestions item_type item_data }

/-- Layer 1 of `_book_with_fallback`: the `for attempt in range(3)` retry
loop over the primary API, called with the attempt list [0, 1, 2].  Returns
the confirmation and recorded attempt count of the first successful call (if
any), paired with the number of primary calls made.  A call that raises or
reports success False falls through to the next attempt. -/
def primaryRetryLoop (stub : Nat → CallOutcome) : List Nat → Option (String × Nat) × Nat
  | [] => (none, 0)
  | attempt :: rest =>
    if (stub attempt).isSuccess then
      (some ((stub attempt).confirmationNumber, attempt + 1), 1)
    else
      let r := primaryRetryLoop stub rest
      (r.1, r.2 + 1)

/-- The asyncio.sleep(2 ^ attempt) backoff delays slept in the primary-API
retry loop, in order.  The sleep statement sits inside the except handler,
guarded by attempt < 2, so a delay is slept only after an attempt that
raised and was not the last; an attempt that returns a result with success
False falls through to the next retry with no sleep, and a success ends the
loop. -/
def primaryBackoffDelays (stub : Nat → CallOutcome) : List Nat → List Nat
  | [] => []
  | attempt :: rest =>
    if (stub attempt).isSuccess then []
    else
      (if stub attempt == CallOutcome.raised && decide (attempt < 2)
        then [2 ^ attempt] else [])
        ++ primaryBackoffDelays stub rest

/-- Embedding of `_book_with_fallback` over backend stubs.  The first
component is the returned result dict; the second is the instrumented trace
of backend calls issued, in order, one entry per call. -/
def book_with_fallback (stubs : BookingStubs) (item_type : String)
    (item_data : BookingItem) (automation_level : Int) :
    BookingResult × List String :=
  match primaryRetryLoop stubs.primary [0, 1, 2] with
  | (some (c, attempts), n) =>
    (mkBookingSuccess "primary_api" c attempts, List.replicate n "primary_api")
  | (none, n) =>
    let trace1 := List.replicate n "primary_api"
    if stubs.secondary.isSuccess then
      (mkBookingSuccess "secondary_api" stubs.secondary.confirmationNumber 1,
       trace1 ++ ["secondary_api"])
    else
      let trace2 := trace1 ++ ["secondary_api"]
      if stubs.browser.isSuccess then
        (mkBookingSuccess "browser_automation" stubs.browser.confirmationNumber 1,
         trace2 ++ ["browser_automation"])
      else
        let trace3 := trace2 ++ ["browser_automation"]
        if automation_level ≥ 3 then
          if stubs.voice.isSuccess then
            (mkBookingSuccess "voice_calling" stubs.voice.confirmationNumber 1,
             trace3 ++ ["voice_calling"])
          else
            (manualRequired item_type item_data, trace3 ++ ["voice_calling"])
        else
          (manualRequired item_type item_data, trace3)

/-- All three primary-API attempts fail (raise or report success False). -/
def allPrimaryFail (stubs : BookingStubs) : Prop :=
  (stubs.primary 0).isSuccess = false ∧ (stubs.primary 1).isSuccess = false ∧
    (stubs.primary 2).isSuccess = false

/-- All three primary-API attempts raise an exception. -/
def allPrimaryRaise (stubs : BookingStubs) : Prop :=
  stubs.primary 0 = CallOutcome.raised ∧ stubs.primary 1 = CallOutcome.raised ∧
    stubs.primary 2 = CallOutcome.raised

/-- The stub of the spec's escalation example: the primary API always raises,
the secondary API succeeds. -/
def primaryFailsSecondaryOkStubs : BookingStubs :=
  { primary := fun _ => .raised
    secondary := .result true "SEC123"
    browser := .raised
    voice := .raised }

/-- A stub whose primary API fails on every attempt by returning a result
with success False (no exception raised), with the secondary API then
succeeding. -/
def primaryFalseResultStubs : BookingStubs :=
  { primary := fun _ => .result false "NOPE"
    secondary := .result true "SEC999"
    browser := .raised
    voice := .raised }

/-- A concrete cart item for escalation examples. -/
def demoBookingItem : BookingItem :=
  { name := some "Grand Hotel", airline := some "TestAir", price := some 300,
    total_cost := none }

/-! ## Safety checkpoint and booking execution
(`_perform_safety_checkpoint` orchestrator_graph.py:3022-3065,
`_booking_execution` orchestrator_graph.py:1695-1873) -/

/-- The slice of user_preferences read by the safety checkpoint. -/
structure CheckpointPrefs : Type where
  budget : Option Rat
  payment_method : Option String
  destination : Option String
  passport_verified : Option Bool
deriving DecidableEq

/-- The shopping-cart slice read by the safety checkpoint and by
`_booking_execution`. -/
structure Cart : Type where
  flights : List BookingItem
  hotels : List BookingItem
  activities : List BookingItem
  total_cost : Option Rat
deriving DecidableEq

/-- Result dict of `_perform_safety_checkpoint`.  Issue strings stand for the
corresponding formatted messages of the source with the interpolated dollar
amounts elided; message likewise keeps only the pass/fail part. -/
structure SafetyCheck : Type where
  approved : Bool
  issues : List String
  message : String
  total_cost : Rat
  budget : Rat
  risk_level : String
deriving DecidableEq

/-- Embedding of `_perform_safety_checkpoint`: the five issue checks in
source order, approval iff no issue was appended. -/
def perform_safety_checkpoint (prefs : CheckpointPrefs) (cart : Cart) : SafetyCheck :=
  let total_cost := cart.total_cost.getD 0
  let budget := prefs.budget.getD 5000
  let issues1 : List String :=
    if total_cost > budget * 1.2 then ["Total cost is significantly over budget"] else []
  let issues2 := issues1 ++
    (match cart.flights with
     | [] => []
     | flight :: _ =>
       if flight.price.getD 0 > budget * 0.7 then ["Flight cost is unusually high"] else [])
  let issues3 := issues2 ++
    (match cart.hotels with
     | [] => []
     | hotel :: _ =>
       if hotel.total_cost.getD 0 > budget * 0.6 then ["Hotel cost is unusually high"] else [])
  let issues4 := issues3 ++
    (if pyStrTruthy prefs.payment_method then [] else ["No payment method configured"])
  let issues5 := issues4 ++
    (if pyStrTruthy prefs.destination && !(pyBoolTruthy prefs.passport_verified) then
       ["Travel documents not verified for international travel"]
     else [])
  let approved := issues5.isEmpty
  { approved := approved
    issues := issues5
    message := if approved then "Safety checkpoint passed" else "Safety checkpoint failed"
    total_cost := total_cost
    budget := budget
    risk_level := if approved then "low" else "high" }

/-- Stubs for the booking backends used while executing a cart: one
BookingStubs per (item type, index within its category list). -/
def BookingEnv : Type :=
  String → Nat → BookingStubs

/-- The observable outcome of `_booking_execution` that the safety-gate claim
is about: whether the level-4 checkpoint ran, the error recorded into the
state, and the trace of `_book_with_fallback` calls issued, in order, as
(item type, backend-call trace) pairs. -/
structure BookingExecOutcome : Type where
  checkpoint_ran : Bool
  error : Option String
  call_trace : List (String × List String)
deriving DecidableEq

/-- The `_book_with_fallback` calls `_booking_execution` issues for a cart:
the first flight (when the flights list is truthy), then the first hotel,
then every activity in order. -/
def bookingCalls (env : BookingEnv) (automation_level : Int) (cart : Cart) :
    List (String × List String) :=
  (match cart.flights with
   | [] => []
   | f :: _ =>
     [("flights", (book_with_fallback (env "flights" 0) "flights" f automation_level).2)])
  ++ (match cart.hotels with
      | [] => []
      | h :: _ =>
        [("hotels", (book_with_fallback (env "hotels" 0) "hotels" h automation_level).2)])
  ++ cart.activities.enum.map
      (fun p =>
        ("activities",
         (book_with_fallback (env "activities" p.1) "activities" p.2 automation_level).2))

/-- Embedding of the booking part of `_booking_execution`: at automation
level 4 the safety checkpoint runs before any booking layer; a failed
checkpoint records the error and books nothing; otherwise the cart is booked
through `_book_with_fallback`. -/
def booking_execution (env : BookingEnv) (automation_level : Int)
    (prefs : CheckpointPrefs) (cart : Cart) : BookingExecOutcome :=
  if automation_level = 4 then
    let safety_check := perform_safety_checkpoint prefs cart
    if safety_check.approved then
      { checkpoint_ran := true, error := none,
        call_trace := bookingCalls env automation_level cart }
    else
      { checkpoint_ran := true, error := some safety_check.message, call_trace := [] }
  else
    { checkpoint_ran := false, error := none,
      call_trace := bookingCalls env automation_level cart }

/-- Booking env used in concrete checkpoint examples. -/
def demoBookingEnv : BookingEnv :=
  fun _ _ => primaryFailsSecondaryOkStubs

/-- Preferences of the spec's checkpoint example: $1000 budget, payment
configured, destination set, documents verified. -/
def demoPrefs80 : CheckpointPrefs :=
  { budget := some 1000, payment_method := some "visa",
    destination := some "Paris", passport_verified := some true }

/-- Cart of the spec's checkpoint example: one flight costing 80% of the
$1000 budget. -/
def demoCart80 : Cart :=
  { flights := [{ name := none, airline := some "TestAir", price := some 800,
                  total_cost := none }],
    hotels := [], activities := [], total_cost := some 800 }

/-- Preferences with no destination set and unverified travel documents but
every other precondition satisfied. -/
def demoPrefsNoDest : CheckpointPrefs :=
  { budget := some 1000, payment_method := some "visa",
    destination := none, passport_verified := none }

/-- A small cart far under budget. -/
def demoCartSmall : Cart :=
  { flights := [{ name := none, airline := some "TestAir", price := some 100,
                  total_cost := none }],
    hotels := [], activities := [], total_cost := some 100 }

/-! ## Snapshot / backtrack subsystem
(`_create_context_snapshot` orchestrator_graph.py:2155-2178,
`_save_context_snapshot` orchestrator_graph.py:2180-2199,
`_restore_context_snapshot` orchestrator_graph.py:2201-2225) -/

/-- A store of mutable Python dict objects, address-indexed, with a
fresh-address counter: makes object identity (deep copies vs aliasing)
explicit. -/
structure Heap (α : Type) : Type where
  store : List (Nat × α)
  next : Nat
deriving DecidableEq

/-- Reading the object at an address. -/
def Heap.read {α : Type} (h : Heap α) (r : Nat) : Option α :=
  h.store.lookup r

/-- In-place mutation of the object at an address (the Python object keeps
its identity, only its contents change). -/
def Heap.write {α : Type} (h : Heap α) (r : Nat) (v : α) : Heap α :=
  { h with store := h.store.map (fun p => if p.1 = r then (r, v) else p) }

/-- Allocation of a fresh object, as copy.deepcopy produces a new dict. -/
def Heap.alloc {α : Type} (h : Heap α) (v : α) : Heap α × Nat :=
  ({ store := (h.next, v) :: h.store, next := h.next + 1 }, h.next)

/-- An entry of backtrack_history. -/
structure HistoryEntry : Type where
  snapshot_id : String
  timestamp : Nat
  label : String
  step : String
deriving DecidableEq

/-- A context snapshot built by `_create_context_snapshot`: metadata plus the
addresses of the deep-copied preferences / cart / status / communications
objects. -/
structure Snapshot : Type where
  snapshot_id : String
  timestamp : Nat
  label : String
  step_count : Nat
  current_step : String
  user_preferences : Nat
  shopping_cart : Nat
  agent_status : Nat
  agent_communications : Nat
  automation_level : Int
  cart_version : Nat
deriving DecidableEq

/-- The conversation-state slice the snapshot subsystem touches.  The four
mutable dicts live in the heap; the session holds their addresses.  The
payload type α abstracts the dict contents. -/
structure SessionState (α : Type) : Type where
  user_preferences : Nat
  shopping_cart : Nat
  agent_status : Nat
  agent_communications : Nat
  automation_level : Int
  cart_version : Nat
  current_step : String
  step_count : Nat
  context_snapshots : List (String × Snapshot)
  backtrack_history : List HistoryEntry
  heap : Heap α
deriving DecidableEq

/-- Python dict assignment d[k] = v on an insertion-ordered dict: replace in
place when the key exists, else append. -/
def dictInsert {β : Type} (d : List (String × β)) (k : String) (v : β) :
    List (String × β) :=
  if (d.lookup k).isSome then d.map (fun p => if p.1 = k then (k, v) else p)
  else d ++ [(k, v)]

/-- Python del d[k]. -/
def dictErase {β : Type} (d : List (String × β)) (k : String) :
    List (String × β) :=
  d.filter (fun p => p.1 != k)

/-- Embedding of `_create_context_snapshot`: deep-copies the four mutable
dicts into fresh heap objects.  uuid4() and time.time() are nondeterministic,
so the fresh id and the timestamp are parameters.  Inhabited α is only used
to read the live objects (a dangling address never occurs in well-formed
sessions). -/
def create_context_snapshot {α : Type} [Inhabited α] (s : SessionState α)
    (label : Option String) (id : String) (timestamp : Nat) :
    SessionState α × Snapshot :=
  let a1 := s.heap.alloc ((s.heap.read s.user_preferences).getD default)
  let a2 := a1.1.alloc ((a1.1.read s.shopping_cart).getD default)
  let a3 := a2.1.alloc ((a2.1.read s.agent_status).getD default)
  let a4 := a3.1.alloc ((a3.1.read s.agent_communications).getD default)
  let snapshot : Snapshot :=
    { snapshot_id := id
      timestamp := timestamp
      label := label.getD ("step_" ++ s.current_step)
      step_count := s.step_count
      current_step := s.current_step
      user_preferences := a1.2
      shopping_cart := a2.2
      agent_status := a3.2
      agent_communications := a4.2
      automation_level := s.automation_level
      cart_version := s.cart_version }
  ({ s with heap := a4.1 }, snapshot)

/-- Embedding of `_save_context_snapshot`: store the snapshot, append to
backtrack_history, and when the history exceeds 10 entries evict the oldest
from both the history and the snapshot map. -/
def save_context_snapshot {α : Type} [Inhabited α] (s : SessionState α)
    (label : Option String) (id : String) (timestamp : Nat) : SessionState α :=
  let c := create_context_snapshot s label id timestamp
  let s2 : SessionState α := { c.1 with
    context_snapshots := dictInsert c.1.context_snapshots c.2.snapshot_id c.2
    backtrack_history := c.1.backtrack_history ++
      [{ snapshot_id := c.2.snapshot_id, timestamp := c.2.timestamp,
         label := c.2.label, step := c.1.current_step }] }
  if s2.backtrack_history.length > 10 then
    match s2.backtrack_history with
    | [] => s2
    | oldest :: rest =>
      { s2 with
        backtrack_history := rest
        context_snapshots :=
          if (s2.context_snapshots.lookup oldest.snapshot_id).isSome then
            dictErase s2.context_snapshots oldest.snapshot_id
          else s2.context_snapshots }
  else s2

/-- Embedding of `_restore_context_snapshot`.  Returns the updated state and
the boolean result.  The snapshot's objects are installed by reference: the
source assigns the snapshot's dicts into the state without copying. -/
def restore_context_snapshot {α : Type} (s : SessionState α)
    (snapshot_id : String) : SessionState α × Bool :=
  match s.context_snapshots.lookup snapshot_id with
  | none => (s, false)
  | some snapshot =>
    ({ s with
        user_preferences := snapshot.user_preferences
        shopping_cart := snapshot.shopping_cart
        agent_status := snapshot.agent_status
        agent_communications := snapshot.agent_communications
        automation_level := snapshot.automation_level
        cart_version := snapshot.cart_version
        current_step := snapshot.current_step
        step_count := snapshot.step_count }, true)

/-- In-place mutation of the live user_preferences dict. -/
def mutate_user_preferences {α : Type} (s : SessionState α) (v : α) :
    SessionState α :=
  { s with heap := s.heap.write s.user_preferences v }

/-- In-place mutation of the live shopping_cart dict. -/
def mutate_shopping_cart {α : Type} (s : SessionState α) (v : α) :
    SessionState α :=
  { s with heap := s.heap.write s.shopping_cart v }

/-- In-place mutation of the live agent_status dict. -/
def mutate_agent_status {α : Type} (s : SessionState α) (v : α) :
    SessionState α :=
  { s with heap := s.heap.write s.agent_status v }

/-- In-place mutation of the live agent_communications dict. -/
def mutate_agent_communications {α : Type} (s : SessionState α) (v : α) :
    SessionState α :=
  { s with heap := s.heap.write s.agent_communications v }

/-- An address is live: below the allocation counter and allocated. -/
def refWF {α : Type} (h : Heap α) (r : Nat) : Bool :=
  decide (r < h.next) && (h.read r).isSome

/-- Every allocated address is below the allocation counter. -/
def heapWF {α : Type} (h : Heap α) : Bool :=
  h.store.all (fun p => decide (p.1 < h.next))

/-- A session is well formed when its heap is and every address it or its
snapshots hold is live. -/
def session_wf {α : Type} (s : SessionState α) : Bool :=
  heapWF s.heap &&
  refWF s.heap s.user_preferences && refWF s.heap s.shopping_cart &&
  refWF s.heap s.agent_status && refWF s.heap s.agent_communications &&
  s.context_snapshots.all (fun p =>
    refWF s.heap p.2.user_preferences && refWF s.heap p.2.shopping_cart &&
    refWF s.heap p.2.agent_status && refWF s.heap p.2.agent_communications)

/-- The backtracking invariant: bounded history, distinct ids on both sides,
and the history ids in bijection with the snapshot-map keys. -/
def snapshot_invariant {α : Type} (s : SessionState α) : Prop :=
  s.backtrack_history.length ≤ 10 ∧
  (s.backtrack_history.map (fun e => e.snapshot_id)).Nodup ∧
  (s.context_snapshots.map (fun p => p.1)).Nodup ∧
  (∀ id : String,
    id ∈ s.backtrack_history.map (fun e => e.snapshot_id) ↔
      id ∈ s.context_snapshots.map (fun p => p.1))

/-- A concrete well-formed session over Nat payloads: four live dicts at
addresses 0-3, no snapshots yet. -/
def demoSession : SessionState Nat :=
  { user_preferences := 0, shopping_cart := 1, agent_status := 2,
    agent_communications := 3, automation_level := 2, cart_version := 1,
    current_step := "cart_review", step_count := 5,
    context_snapshots := [], backtrack_history := [],
    heap := { store := [(0, 10), (1, 20), (2, 30), (3, 40)], next := 4 } }

/-- Saving a sequence of snapshots (fresh id each) onto the demo session. -/
def saveManyDemo (ids : List String) : SessionState Nat :=
  ids.foldl (fun s id => save_context_snapshot s none id 0) demoSession

/-- Eleven distinct snapshot ids. -/
def elevenIds : List String :=
  ["s01", "s02", "s03", "s04", "s05", "s06", "s07", "s08", "s09", "s10", "s11"]

/-! ## Cross-agent filter pipeline and combination generator
(performance_optimizations.py) -/

/-- A location dict with optional lat / lon, read with default 0; a missing
location dict behaves like both keys missing. -/
structure Location : Type where
  lat : Option Rat
  lon : Option Rat
deriving DecidableEq

/-- Squared Euclidean distance of `_calculate_distance`
(performance_optimizations.py:166-175).  The source returns the square root;
every use compares the distance against a nonnegative constant, and sqrt is
strictly monotone on nonnegative reals, so the embedding tracks the squared
distance and the comparisons use squared constants. -/
def distSq (l1 l2 : Location) : Rat :=
  (l2.lat.getD 0 - l1.lat.getD 0) ^ 2 + (l2.lon.getD 0 - l1.lon.getD 0) ^ 2

/-- The flight-dict slice performance_optimizations.py reads.  A price given
as a nested dict (the isinstance branch of the price reads) is not
representable here: price is either absent or a number, and the class_field
field holds the "class" key. -/
structure POFlight : Type where
  price : Option Rat
  airline : Option String
  stops : Option Nat
  class_field : Option String
  rating : Option Rat
  destination_airport : Option String
  arrival_time : Option String
deriving DecidableEq

/-- The hotel-dict slice performance_optimizations.py reads.  priceBreakdown
models a truthy nested dict by its optional "total" entry, price by its
optional "amount" entry. -/
structure POHotel : Type where
  priceBreakdown : Option (Option Rat)
  price : Option (Option Rat)
  airport_distance_km : Option Rat
  checkin_time : Option String
  rating : Option Rat
  location : Location
  arrival_compatible : Option Bool
deriving DecidableEq

/-- The hotel price read used across performance_optimizations.py:
priceBreakdown["total"] when a truthy priceBreakdown dict is present, else
price["amount"] when a truthy price dict is present, else 0. -/
def POHotel.hotelPrice (h : POHotel) : Rat :=
  match h.priceBreakdown with
  | some total => total.getD 0
  | none =>
    match h.price with
    | some amount => amount.getD 0
    | none => 0

/-- The activity-dict slice performance_optimizations.py reads.  The
distance_to_hotel_sq field holds the square of the "distance_to_hotel"
annotation written by `_select_best_activities_for_combination`. -/
structure POActivity : Type where
  price : Option Rat
  rating : Option Rat
  categories : List String
  location : Location
  distance_to_hotel_sq : Option Rat
deriving DecidableEq

/-- The preference slice the filter pipeline reads: budget, the
flight_preferences sub-dict (preferred_airline key presence, nonstop_only
default False, the "class" key as class_pref), and the interests list. -/
structure POPrefs : Type where
  budget : Option Rat
  preferred_airline : Option String
  nonstop_only : Bool
  class_pref : Option String
  interests : List String
deriving DecidableEq

/-- Sort order of `_filter_flights_by_preferences`: key (price, -rating)
ascending. -/
def flightSortLe (a b : POFlight) : Bool :=
  decide (a.price.getD 0 < b.price.getD 0 ∨
    (a.price.getD 0 = b.price.getD 0 ∧ b.rating.getD 0 ≤ a.rating.getD 0))

/-- Embedding of `_filter_flights_by_preferences`
(performance_optimizations.py:50-89): budget cap at 40% of the budget, then
airline / stops / class preference filters, sort, top 5. -/
def filter_flights_by_preferences (flights : List POFlight)
    (preferences : POPrefs) (budget : Rat) : List POFlight :=
  if flights.isEmpty then []
  else
    let max_flight_budget := budget * 0.4
    let filtered := flights.filter (fun flight =>
      if decide (flight.price.getD 0 > max_flight_budget) then false
      else if (match preferences.preferred_airline with
               | some a => flight.airline != some a
               | none => false) then false
      else if preferences.nonstop_only && decide (flight.stops.getD 0 > 0) then false
      else if (match preferences.class_pref with
               | some c => flight.class_field != some c
               | none => false) then false
      else true)
    (pySort flightSortLe filtered).take 5

/-- Sort order of `_filter_hotels_by_flight_context`: key
(airport_distance_km, -rating) ascending. -/
def hotelSortLe (a b : POHotel) : Bool :=
  decide (a.airport_distance_km.getD 100 < b.airport_distance_km.getD 100 ∨
    (a.airport_distance_km.getD 100 = b.airport_distance_km.getD 100 ∧
      b.rating.getD 0 ≤ a.rating.getD 0))

/-- One iteration of the hotel loop in `_filter_hotels_by_flight_context`:
returns the hotel object as it stands after the iteration (the source sets
arrival_compatible on it in place) and whether it was appended to the
filtered list. -/
def hotelFilterStep (arrival_airport arrival_time : String) (hotel_budget : Rat)
    (hotel : POHotel) : POHotel × Bool :=
  if arrival_airport != "" && decide (hotel.airport_distance_km.getD 100 > 50) then
    (hotel, false)
  else
    let hotel2 :=
      if arrival_time != "" && pyStrLt (hotel.checkin_time.getD "15:00") arrival_time then
        { hotel with arrival_compatible := some true }
      else hotel
    if decide (hotel2.hotelPrice > hotel_budget) then (hotel2, false)
    else (hotel2, true)

/-- Embedding of `_filter_hotels_by_flight_context`
(performance_optimizations.py:91-125).  First component: the returned
filtered list; second component: the input hotel list as it stands after the
call (the source annotates hotel dicts in place). -/
def filter_hotels_by_flight_context (hotels : List POHotel)
    (flights : List POFlight) (preferences : POPrefs) :
    List POHotel × List POHotel :=
  match flights with
  | [] => (hotels.take 5, hotels)
  | best_flight :: _ =>
    if hotels.isEmpty then (hotels.take 5, hotels)
    else
      let arrival_airport := best_flight.destination_airport.getD ""
      let arrival_time := best_flight.arrival_time.getD ""
      let hotel_budget := preferences.budget.getD 5000 * 0.35
      let stepped := hotels.map (hotelFilterStep arrival_airport arrival_time hotel_budget)
      let filtered := (stepped.filter (fun p => p.2)).map (fun p => p.1)
      ((pySort hotelSortLe filtered).take 5, stepped.map (fun p => p.1))

/-- Sort order of `_filter_activities_by_location_context`: key
(-rating, price) ascending. -/
def activitySortLe (a b : POActivity) : Bool :=
  decide (b.rating.getD 0 < a.rating.getD 0 ∨
    (a.rating.getD 0 = b.rating.getD 0 ∧ a.price.getD 0 ≤ b.price.getD 0))

/-- Embedding of `_filter_activities_by_location_context`
(performance_optimizations.py:127-164): proximity to the best hotel (within
20 km), interest match, budget cap at 25% of the budget, sort, top 10. -/
def filter_activities_by_location_context (activities : List POActivity)
    (hotels : List POHotel) (preferences : POPrefs) : List POActivity :=
  if activities.isEmpty then []
  else
    let interests := preferences.interests
    let activity_budget := preferences.budget.getD 5000 * 0.25
    let filtered := activities.filter (fun activity =>
      (match hotels with
       | [] => true
       | best_hotel :: _ =>
         !(decide (distSq best_hotel.location activity.location > 400))) &&
      (interests.isEmpty ||
        interests.any (fun i => activity.categories.contains i)) &&
      !(decide (activity.price.getD 0 > activity_budget)))
    (pySort activitySortLe filtered).take 10

/-- One trip bundle built by `_generate_optimal_combinations`. -/
structure Combination : Type where
  flight : POFlight
  hotel : POHotel
  activities : List POActivity
  total_cost : Rat
  compatibility_score : Rat
  budget_remaining : Rat
deriving DecidableEq

/-- Python int() of the digits before the first colon, as in
int(t.split(":")[0]), with a default when the string has no colon.  int() of
a non-numeric prefix raises in Python; such strings are mapped to 0 here
(no modelled claim depends on them). -/
def pyHourBeforeColon (s : String) (dflt : Int) : Int :=
  if s.data.any (fun c => c == ':') then
    (s.data.takeWhile (fun c => c != ':')).foldl
      (fun n c => n * 10 + ((c.toNat : Int) - 48)) 0
  else dflt

/-- Embedding of `_calculate_compatibility`
(performance_optimizations.py:411-442): airport distance (weight 0.4),
arrival-vs-check-in hour compatibility (0.3 or the 0.1 late-arrival
penalty), budget efficiency of the combined price (weight 0.3), capped
at 1.0. -/
def calculate_compatibility (flight : POFlight) (hotel : POHotel)
    (total_budget : Rat) : Rat :=
  let airport_distance := hotel.airport_distance_km.getD 50
  let distance_score := 1 - min (airport_distance / 100) 1
  let score1 := distance_score * 0.4
  let arrival_time := flight.arrival_time.getD ""
  let checkin_time := hotel.checkin_time.getD "15:00"
  let score2 :=
    if arrival_time != "" && checkin_time != "" then
      let arrival_hour := pyHourBeforeColon arrival_time 12
      let checkin_hour := pyHourBeforeColon checkin_time 15
      if arrival_hour ≤ checkin_hour then score1 + 0.3 else score1 + 0.1
    else score1
  let flight_price := flight.price.getD 0
  let hotel_price := hotel.hotelPrice
  let combined_cost := flight_price + hotel_price
  let budget_efficiency :=
    if total_budget > 0 then 1 - combined_cost / total_budget else 0
  let score3 := score2 + budget_efficiency * 0.3
  min score3 1

/-- Sort order inside `_select_best_activities_for_combination`: key
(-rating, distance_to_hotel) ascending; distances compare like their
squares. -/
def nearbySortLe (a b : POActivity) : Bool :=
  decide (b.rating.getD 0 < a.rating.getD 0 ∨
    (a.rating.getD 0 = b.rating.getD 0 ∧
      a.distance_to_hotel_sq.getD 0 ≤ b.distance_to_hotel_sq.getD 0))

/-- The selection loop of `_select_best_activities_for_combination`: greedy
over the sorted nearby activities, keeping the running cost within the
remaining budget and breaking as soon as three activities are selected. -/
def greedySelectActivities (remaining_budget : Rat) :
    List POActivity → List POActivity → Rat → List POActivity
  | [], selected, _ => selected
  | activity :: rest, selected, total_activity_cost =>
    let activity_cost := activity.price.getD 0
    if total_activity_cost + activity_cost ≤ remaining_budget then
      let selected2 := selected ++ [activity]
      if 3 ≤ selected2.length then selected2
      else greedySelectActivities remaining_budget rest selected2
        (total_activity_cost + activity_cost)
    else
      greedySelectActivities remaining_budget rest selected total_activity_cost

/-- Embedding of `_select_best_activities_for_combination`
(performance_optimizations.py:444-481): keep activities within 25 km of the
hotel (annotating their distance), sort by (-rating, distance), then greedily
select at most three within 20% of the budget. -/
def select_best_activities_for_combination (hotel : POHotel)
    (activities : List POActivity) (budget : Rat) : List POActivity :=
  if activities.isEmpty then []
  else
    let nearby := activities.filterMap (fun activity =>
      let d := distSq hotel.location activity.location
      if d ≤ 625 then some { activity with distance_to_hotel_sq := some d }
      else none)
    let sorted := pySort nearbySortLe nearby
    let remaining_budget := budget * 0.2
    greedySelectActivities remaining_budget sorted [] 0

/-- Sort order of `_generate_optimal_combinations`: key
(compatibility_score, -total_cost) with reverse True, i.e. compatibility
descending with ties broken by total cost ascending, stable. -/
def combSortLe (a b : Combination) : Bool :=
  decide (b.compatibility_score < a.compatibility_score ∨
    (b.compatibility_score = a.compatibility_score ∧ a.total_cost ≤ b.total_cost))

/-- The flight × hotel pair combinations `_generate_optimal_combinations`
builds before sorting and truncation: top-3 flights paired with top-3
hotels, activities chosen from the top 5. -/
def all_combinations (flights : List POFlight) (hotels : List POHotel)
    (activities : List POActivity) (budget : Rat) : List Combination :=
  let top_flights := flights.take 3
  let top_hotels := hotels.take 3
  let top_activities := activities.take 5
  top_flights.flatMap (fun flight =>
    top_hotels.map (fun hotel =>
      let compatibility := calculate_compatibility flight hotel budget
      let best_activities :=
        select_best_activities_for_combination hotel top_activities budget
      let flight_price := flight.price.getD 0
      let hotel_price := hotel.hotelPrice
      let activity_costs :=
        (best_activities.map (fun a => a.price.getD 0)).sum
      let total_cost := flight_price + hotel_price + activity_costs
      { flight := flight
        hotel := hotel
        activities := best_activities
        total_cost := total_cost
        compatibility_score := compatibility
        budget_remaining := budget - total_cost }))

/-- Embedding of `_generate_optimal_combinations`
(performance_optimizations.py:365-409).  The budget argument stands for
state["user_preferences"].get("budget", 5000), read identically at each use
site of the source. -/
def generate_optimal_combinations (flights : List POFlight)
    (hotels : List POHotel) (activities : List POActivity) (budget : Rat) :
    List Combination :=
  (pySort combSortLe (all_combinations flights hotels activities budget)).take 5

/-- A hotel close to the airport with a cheap price and no
arrival_compatible key. -/
def demoHotelCx : POHotel :=
  { priceBreakdown := none, price := some (some 100),
    airport_distance_km := some 10, checkin_time := none, rating := none,
    location := { lat := none, lon := none }, arrival_compatible := none }

/-- A flight arriving at 18:00, after the default 15:00 check-in. -/
def demoFlightCx : POFlight :=
  { price := some 300, airline := none, stops := none, class_field := none,
    rating := none, destination_airport := some "JFK",
    arrival_time := some "18:00" }

/-- Plain preferences with a $1000 budget. -/
def demoPOPrefs : POPrefs :=
  { budget := some 1000, preferred_airline := none, nonstop_only := false,
    class_pref := none, interests := [] }

/-! ## Parallel search coordinator (`_parallel_search_coordinator`,
orchestrator_graph.py:3640-3762) -/

/-- The components_needed preference (main.py:85-95): which categories the
user asked to search. -/
structure ComponentsNeeded : Type where
  flights : Bool
  hotels : Bool
  activities : Bool
deriving DecidableEq

/-- Embedding of the task-launching behaviour of
`_parallel_search_coordinator`: the coordinator initialises
parallel_search["agents"] with all three agents and creates one asyncio task
for each of flight_agent, lodging_agent and activities_agent
unconditionally; the components_needed preference is never read by it. -/
def parallel_search_launched_agents
    (_components_needed : Option ComponentsNeeded) : List String :=
  ["flight_agent", "lodging_agent", "activities_agent"]

/-- The agents the repository's own test suite
(test_component_selection.py:145-161) expects the coordinator to run for a
given components_needed selection. -/
def expected_agents_for_components (c : ComponentsNeeded) : List String :=
  (if c.flights then ["flight_agent"] else []) ++
  (if c.hotels then ["lodging_agent"] else []) ++
  (if c.activities then ["activities_agent"] else [])

/-- The components_needed selection of the repository's "Local Trip (No
Flights)" test case (test_component_selection.py:59-66). -/
def localTripComponents : ComponentsNeeded :=
  { flights := false, hotels := true, activities := true }

/-- Mutating the three live dicts the C5 round-trip claim talks about:
user_preferences, shopping_cart and agent_status, in that order. -/
def mutate_three {α : Type} (s : SessionState α) (v1 v2 v3 : α) :
    SessionState α :=
  mutate_agent_status (mutate_shopping_cart (mutate_user_preferences s v1) v2) v3

/-- Mutating all four live dicts. -/
def mutate_four {α : Type} (s : SessionState α) (v1 v2 v3 v4 : α) :
    SessionState α :=
  mutate_agent_communications (mutate_three s v1 v2 v3) v4

/-! ## Helper lemmas about the stable sort -/

theorem mem_insertSorted {α : Type} (le : α → α → Bool) (x a : α) (l : List α) :
    a ∈ insertSorted le x l ↔ a = x ∨ a ∈ l := by
  induction l with
  | nil => simp [insertSorted]
  | cons y ys ih =>
    by_cases h : le y x <;> simp [insertSorted, h, ih] <;> tauto

theorem length_insertSorted {α : Type} (le : α → α → Bool) (x : α) (l : List α) :
    (insertSorted le x l).length = l.length + 1 := by
  induction l with
  | nil => simp [insertSorted]
  | cons y ys ih =>
    by_cases h : le y x <;> simp [insertSorted, h, ih]

theorem pairwise_insertSorted {α : Type} (le : α → α → Bool)
    (htrans : ∀ a b c, le a b = true → le b c = true → le a c = true)
    (htotal : ∀ a b, le a b = true ∨ le b a = true)
    (x : α) (l : List α) (hl : l.Pairwise (fun a b => le a b = true)) :
    (insertSorted le x l).Pairwise (fun a b => le a b = true) := by
  induction l with
  | nil => simp [insertSorted]
  | cons y ys ih =>
    rcases List.pairwise_cons.1 hl with ⟨hy, hys⟩
    by_cases h : le y x
    · simp only [insertSorted, h, if_pos]
      refine List.pairwise_cons.2 ⟨?_, ih hys⟩
      intro z hz
      rcases (mem_insertSorted le x z ys).1 hz with rfl | hz2
      · exact h
      · exact hy z hz2
    · have hxy : le x y = true := by
        rcases htotal x y with h2 | h2
        · exact h2
        · exact absurd h2 h
      simp only [insertSorted, h, if_neg]
      refine List.pairwise_cons.2 ⟨?_, hl⟩
      intro z hz
      rcases List.mem_cons.1 hz with rfl | hz2
      · exact hxy
      · exact htrans x y z hxy (hy z hz2)

theorem mem_pySort {α : Type} (le : α → α → Bool) (a : α) (l : List α) :
    a ∈ pySort le l ↔ a ∈ l := by
  suffices h : ∀ (l acc : List α),
      (a ∈ l.foldl (fun acc x => insertSorted le x acc) acc ↔ a ∈ acc ∨ a ∈ l) by
    have h2 := h l []
    simpa [pySort] using h2
  intro l
  induction l with
  | nil => simp
  | cons y ys ih =>
    intro acc
    simp only [List.foldl_cons, ih, mem_insertSorted, List.mem_cons]
    tauto

theorem length_pySort {α : Type} (le : α → α → Bool) (l : List α) :
    (pySort le l).length = l.length := by
  suffices h : ∀ (l acc : List α),
      (l.foldl (fun acc x => insertSorted le x acc) acc).length =
        acc.length + l.length by
    have h2 := h l []
    simpa [pySort] using h2
  intro l
  induction l with
  | nil => simp
  | cons y ys ih =>
    intro acc
    simp only [List.foldl_cons, ih, length_insertSorted, List.length_cons]
    omega

theorem pairwise_pySort {α : Type} (le : α → α → Bool)
    (htrans : ∀ a b c, le a b = true → le b c = true → le a c = true)
    (htotal : ∀ a b, le a b = true ∨ le b a = true) (l : List α) :
    (pySort le l).Pairwise (fun a b => le a b = true) := by
  suffices h : ∀ (l acc : List α), acc.Pairwise (fun a b => le a b = true) →
      (l.foldl (fun acc x => insertSorted le x acc) acc).Pairwise
        (fun a b => le a b = true) by
    exact h l [] (by simp)
  intro l
  induction l with
  | nil => intro acc hacc; simpa using hacc
  | cons y ys ih =>
    intro acc hacc
    exact ih _ (pairwise_insertSorted le htrans htotal y acc hacc)

/-! ## C3: budget compliance classification -/

/-- C3 (amended): for every nonnegative budget b, budget-compliance
classification returns within_budget iff the total is at most the budget,
slightly_over iff it exceeds the budget by at most 5%, moderately_over iff it
exceeds it by more than 5% and at most 15%, and significantly_over iff it
exceeds it by more than 15%; in particular, with a $1000 budget, $1000 is
within_budget, $1040 slightly_over, $1140 moderately_over and $1200
significantly_over.  (For negative budgets the elif chain makes the ranges
overlap and the equivalences fail, see the counterexample.) -/
theorem C3_budget_compliance_classification (t b : Rat) :
    (0 ≤ b →
      (((analyze_budget_compliance t b).status = "within_budget" ↔ t ≤ b) ∧
       ((analyze_budget_compliance t b).status = "slightly_over" ↔
         b < t ∧ t ≤ 1.05 * b) ∧
       ((analyze_budget_compliance t b).status = "moderately_over" ↔
         1.05 * b < t ∧ t ≤ 1.15 * b) ∧
       ((analyze_budget_compliance t b).status = "significantly_over" ↔
         1.15 * b < t))) ∧
    (analyze_budget_compliance 1000 1000).status = "within_budget" ∧
    (analyze_budget_compliance 1040 1000).status = "slightly_over" ∧
    (analyze_budget_compliance 1140 1000).status = "moderately_over" ∧
    (analyze_budget_compliance 1200 1000).status = "significantly_over" := by
  refine ⟨fun hb => ⟨?_, ?_, ?_, ?_⟩, ?_, ?_, ?_, ?_⟩ <;>
    simp only [analyze_budget_compliance] <;>
    split_ifs with h1 h2 h3 <;>
    simp_all <;>
    (try constructor) <;>
    intros <;>
    linarith [mul_comm b (1.05 : Rat), mul_comm b (1.15 : Rat)]

/-- C3 counterexample to the unrestricted claim: with total -100 and budget
-100 the code classifies within_budget although the total exceeds 1.15 times
the budget, so the claimed equivalence for significantly_over fails. -/
theorem C3_negative_budget_counterexample :
    (analyze_budget_compliance (-100) (-100)).status = "within_budget" ∧
    (1.15 * (-100 : Rat) < -100) ∧
    (analyze_budget_compliance (-100) (-100)).status ≠ "significantly_over" := by
  have h : (analyze_budget_compliance (-100) (-100)).status = "within_budget" := by
    norm_num [analyze_budget_compliance]
  refine ⟨h, by norm_num, ?_⟩
  rw [h]
  decide

/-! ## C10: invalid automation levels degrade to the manual branch -/

/-- C10: for every automation level other than 1, 2, 3 and 4, the
post-aggregation routing function returns level_1 (the manual
present-all-options branch) instead of raising. -/
theorem C10_invalid_level_routes_to_level_1 (automation_level : Int)
    (h : automation_level ≠ 1 ∧ automation_level ≠ 2 ∧
         automation_level ≠ 3 ∧ automation_level ≠ 4) :
    route_by_automation_level automation_level = "level_1" := by
  obtain ⟨h1, h2, h3, h4⟩ := h
  simp [route_by_automation_level, h1, h2, h3, h4]

/-- Witness for C10 at the out-of-range level 7. -/
theorem C10_invalid_level_witness : route_by_automation_level 7 = "level_1" :=
  C10_invalid_level_routes_to_level_1 7 (by decide)

/-! ## C8: the coordinator ignores components_needed -/

/-- C8 (code behaviour at the failing input): for the Local Trip test case,
whose components_needed turns flights off, the coordinator still launches all
three agents - in particular the flight agent - while the repository's own
test expects only the lodging and activities agents. -/
theorem C8_coordinator_ignores_components_needed :
    parallel_search_launched_agents (some localTripComponents) =
      ["flight_agent", "lodging_agent", "activities_agent"] ∧
    "flight_agent" ∈ parallel_search_launched_agents (some localTripComponents) ∧
    expected_agents_for_components localTripComponents =
      ["lodging_agent", "activities_agent"] ∧
    "flight_agent" ∉ expected_agents_for_components localTripComponents := by
  refine ⟨rfl, ?_, ?_, ?_⟩ <;> decide

/-! ## C1: the booking escalation chain -/

/-- C1 (amended): for every stub behaviour, `_book_with_fallback` tries the
layers in fixed order - primary API (3 attempts), secondary API, browser
automation, then voice only when automationLevel is at least 3 -
short-circuits at the first success with the successful method, its
confirmation and the attempt count, and returns the failed /
manual_required record with suggested actions when every layer is exhausted.
A 2 ^ attempt backoff delay (1s then 2s) is slept between primary retries
only when the failed attempt raised - the sleep sits in the except handler -
so a stub whose attempts all raise sleeps [1, 2], while attempts that return
success False retry with no delay (see the counterexample to the unamended
"delay doubling between retries").  In particular, with a primary API that
always fails and a secondary API that succeeds, the result is a success via
secondary_api after exactly 3 recorded primary attempts. -/
theorem C1_booking_escalation_chain (stubs : BookingStubs) (item_type : String)
    (item_data : BookingItem) (automation_level : Int) :
    ((stubs.primary 0).isSuccess = true →
      book_with_fallback stubs item_type item_data automation_level =
        (mkBookingSuccess "primary_api" (stubs.primary 0).confirmationNumber 1,
         ["primary_api"])) ∧
    ((stubs.primary 0).isSuccess = false → (stubs.primary 1).isSuccess = true →
      book_with_fallback stubs item_type item_data automation_level =
        (mkBookingSuccess "primary_api" (stubs.primary 1).confirmationNumber 2,
         ["primary_api", "primary_api"])) ∧
    ((stubs.primary 0).isSuccess = false → (stubs.primary 1).isSuccess = false →
      (stubs.primary 2).isSuccess = true →
      book_with_fallback stubs item_type item_data automation_level =
        (mkBookingSuccess "primary_api" (stubs.primary 2).confirmationNumber 3,
         ["primary_api", "primary_api", "primary_api"])) ∧
    (allPrimaryRaise stubs →
      primaryBackoffDelays stubs.primary [0, 1, 2] = [1, 2]) ∧
    (stubs.primary 0 ≠ CallOutcome.raised →
      stubs.primary 1 ≠ CallOutcome.raised →
      primaryBackoffDelays stubs.primary [0, 1, 2] = []) ∧
    (allPrimaryFail stubs → stubs.secondary.isSuccess = true →
      book_with_fallback stubs item_type item_data automation_level =
        (mkBookingSuccess "secondary_api" stubs.secondary.confirmationNumber 1,
         ["primary_api", "primary_api", "primary_api", "secondary_api"])) ∧
    (allPrimaryFail stubs → stubs.secondary.isSuccess = false →
      stubs.browser.isSuccess = true →
      book_with_fallback stubs item_type item_data automation_level =
        (mkBookingSuccess "browser_automation" stubs.browser.confirmationNumber 1,
         ["primary_api", "primary_api", "primary_api", "secondary_api",
          "browser_automation"])) ∧
    (allPrimaryFail stubs → stubs.secondary.isSuccess = false →
      stubs.browser.isSuccess = false → 3 ≤ automation_level →
      stubs.voice.isSuccess = true →
      book_with_fallback stubs item_type item_data automation_level =
        (mkBookingSuccess "voice_calling" stubs.voice.confirmationNumber 1,
         ["primary_api", "primary_api", "primary_api", "secondary_api",
          "browser_automation", "voice_calling"])) ∧
    (allPrimaryFail stubs → stubs.secondary.isSuccess = false →
      stubs.browser.isSuccess = false → automation_level < 3 →
      book_with_fallback stubs item_type item_data automation_level =
        (manualRequired item_type item_data,
         ["primary_api", "primary_api", "primary_api", "secondary_api",
          "browser_automation"])) ∧
    (allPrimaryFail stubs → stubs.secondary.isSuccess = false →
      stubs.browser.isSuccess = false → 3 ≤ automation_level →
      stubs.voice.isSuccess = false →
      book_with_fallback stubs item_type item_data automation_level =
        (manualRequired item_type item_data,
         ["primary_api", "primary_api", "primary_api", "secondary_api",
          "browser_automation", "voice_calling"])) ∧
    ((book_with_fallback primaryFailsSecondaryOkStubs "flights" demoBookingItem
        2).1.status = "success" ∧
     (book_with_fallback primaryFailsSecondaryOkStubs "flights" demoBookingItem
        2).1.method = "secondary_api" ∧
     (book_with_fallback primaryFailsSecondaryOkStubs "flights" demoBookingItem
        2).2.count "primary_api" = 3) := by
  refine ⟨?_, ?_, ?_, ?_, ?_, ?_, ?_, ?_, ?_, ?_, ?_⟩
  · intro h0
    simp [book_with_fallback, primaryRetryLoop, h0]
  · intro h0 h1
    simp [book_with_fallback, primaryRetryLoop, h0, h1]
  · intro h0 h1 h2
    simp [book_with_fallback, primaryRetryLoop, h0, h1, h2]
  · rintro ⟨h0, h1, h2⟩
    simp [primaryBackoffDelays, h0, h1, h2, CallOutcome.isSuccess]
  · intro h0 h1
    rcases hp0 : stubs.primary 0 with _ | ⟨b0, c0⟩
    · exact absurd hp0 h0
    · rcases hp1 : stubs.primary 1 with _ | ⟨b1, c1⟩
      · exact absurd hp1 h1
      · rcases b0 <;> rcases b1 <;>
          simp [primaryBackoffDelays, hp0, hp1, CallOutcome.isSuccess]
  · rintro ⟨h0, h1, h2⟩ hs
    simp [book_with_fallback, primaryRetryLoop, h0, h1, h2, hs]
  · rintro ⟨h0, h1, h2⟩ hs hb
    simp [book_with_fallback, primaryRetryLoop, h0, h1, h2, hs, hb]
  · rintro ⟨h0, h1, h2⟩ hs hb hl hv
    simp [book_with_fallback, primaryRetryLoop, h0, h1, h2, hs, hb, hv, hl]
  · rintro ⟨h0, h1, h2⟩ hs hb hl
    have hl2 : ¬ (3 ≤ automation_level) := by omega
    simp [book_with_fallback, primaryRetryLoop, h0, h1, h2, hs, hb, hl2]
  · rintro ⟨h0, h1, h2⟩ hs hb hl hv
    simp [book_with_fallback, primaryRetryLoop, h0, h1, h2, hs, hb, hv, hl]
  · refine ⟨?_, ?_, ?_⟩ <;> decide

/-- C1 counterexample to the unamended claim: a primary API that fails every
attempt by returning a result with success False is retried with no backoff
delay at all - asyncio.sleep(2 ^ attempt) sits inside the except handler
only - although the claim promises a delay doubling between retries; the
escalation otherwise proceeds as documented, with 3 recorded primary
attempts before the secondary API succeeds. -/
theorem C1_no_backoff_counterexample :
    primaryBackoffDelays primaryFalseResultStubs.primary [0, 1, 2] = [] ∧
    (book_with_fallback primaryFalseResultStubs "flights" demoBookingItem
      2).2.count "primary_api" = 3 ∧
    (book_with_fallback primaryFalseResultStubs "flights" demoBookingItem
      2).1.method = "secondary_api" := by
  decide

/-! ## C2: the level-4 safety checkpoint gate -/

theorem safety_checkpoint_message_eq (prefs : CheckpointPrefs) (cart : Cart) :
    (perform_safety_checkpoint prefs cart).message =
      (if (perform_safety_checkpoint prefs cart).approved then
        "Safety checkpoint passed" else "Safety checkpoint failed") := rfl

theorem safety_checkpoint_approved_eq (prefs : CheckpointPrefs) (cart : Cart) :
    (perform_safety_checkpoint prefs cart).approved =
      !(decide (cart.total_cost.getD 0 > prefs.budget.getD 5000 * 1.2) ||
        (match cart.flights with
         | [] => false
         | f :: _ => decide (f.price.getD 0 > prefs.budget.getD 5000 * 0.7)) ||
        (match cart.hotels with
         | [] => false
         | h :: _ => decide (h.total_cost.getD 0 > prefs.budget.getD 5000 * 0.6)) ||
        !(pyStrTruthy prefs.payment_method) ||
        (pyStrTruthy prefs.destination &&
          !(pyBoolTruthy prefs.passport_verified))) := by
  simp only [perform_safety_checkpoint]
  rcases hf : cart.flights with _ | ⟨f, fs⟩ <;>
    rcases hh : cart.hotels with _ | ⟨h1, hs⟩ <;>
    rcases hd : pyStrTruthy prefs.destination <;>
    rcases hv : pyBoolTruthy prefs.passport_verified <;>
    dsimp only <;>
    split_ifs <;>
    simp_all

theorem safety_checkpoint_not_approved_iff (prefs : CheckpointPrefs) (cart : Cart) :
    (perform_safety_checkpoint prefs cart).approved = false ↔
      (cart.total_cost.getD 0 > prefs.budget.getD 5000 * 1.2 ∨
       (∃ f, cart.flights.head? = some f ∧
         f.price.getD 0 > prefs.budget.getD 5000 * 0.7) ∨
       (∃ h, cart.hotels.head? = some h ∧
         h.total_cost.getD 0 > prefs.budget.getD 5000 * 0.6) ∨
       pyStrTruthy prefs.payment_method = false ∨
       (pyStrTruthy prefs.destination = true ∧
        pyBoolTruthy prefs.passport_verified = false)) := by
  rw [safety_checkpoint_approved_eq]
  rcases hf : cart.flights with _ | ⟨f, fs⟩ <;>
    rcases hh : cart.hotels with _ | ⟨h1, hs⟩ <;>
    simp only [Bool.not_eq_false', Bool.not_eq_false, Bool.or_eq_true, decide_eq_true_eq,
      Bool.and_eq_true, Bool.not_eq_true, List.head?_nil, List.head?_cons,
      Option.some.injEq, exists_eq_left, exists_eq_left', reduceCtorEq,
      false_and, exists_false, false_or, Bool.not_eq_true'] <;>
    tauto

/-- C2 (amended): the safety checkpoint runs exactly when automationLevel is
4 and before any booking layer; it blocks auto-booking (error recorded, no
booking call issued) exactly when the cart exceeds 1.2 times the budget, the
first flight exceeds 70% of the budget, the first hotel exceeds 60% of the
budget, no payment method is configured, or a destination is set while
travel documents are unverified; at other levels it never runs and never
blocks.  In particular a cart whose flight costs 80% of a $1000 budget is
blocked at level 4 and proceeds unblocked at level 3.  (The unamended claim
omits the destination guard on the document check, see the
counterexample.) -/
theorem C2_safety_checkpoint_gate (env : BookingEnv) (automation_level : Int)
    (prefs : CheckpointPrefs) (cart : Cart) :
    ((booking_execution env automation_level prefs cart).checkpoint_ran = true ↔
      automation_level = 4) ∧
    ((perform_safety_checkpoint prefs cart).approved = false ↔
      (cart.total_cost.getD 0 > prefs.budget.getD 5000 * 1.2 ∨
       (∃ f, cart.flights.head? = some f ∧
         f.price.getD 0 > prefs.budget.getD 5000 * 0.7) ∨
       (∃ h, cart.hotels.head? = some h ∧
         h.total_cost.getD 0 > prefs.budget.getD 5000 * 0.6) ∨
       pyStrTruthy prefs.payment_method = false ∨
       (pyStrTruthy prefs.destination = true ∧
        pyBoolTruthy prefs.passport_verified = false))) ∧
    ((perform_safety_checkpoint prefs cart).approved = false →
      booking_execution env 4 prefs cart =
        { checkpoint_ran := true, error := some "Safety checkpoint failed",
          call_trace := [] }) ∧
    ((perform_safety_checkpoint prefs cart).approved = true →
      booking_execution env 4 prefs cart =
        { checkpoint_ran := true, error := none,
          call_trace := bookingCalls env 4 cart }) ∧
    (automation_level ≠ 4 →
      booking_execution env automation_level prefs cart =
        { checkpoint_ran := false, error := none,
          call_trace := bookingCalls env automation_level cart }) ∧
    ((booking_execution demoBookingEnv 4 demoPrefs80 demoCart80).error =
      some "Safety checkpoint failed" ∧
     (booking_execution demoBookingEnv 4 demoPrefs80 demoCart80).call_trace = [] ∧
     (booking_execution demoBookingEnv 3 demoPrefs80 demoCart80).error = none ∧
     (booking_execution demoBookingEnv 3 demoPrefs80 demoCart80).call_trace ≠ []) := by
  have hblock : ∀ (e : BookingEnv) (p : CheckpointPrefs) (c : Cart),
      (perform_safety_checkpoint p c).approved = false →
      booking_execution e 4 p c =
        { checkpoint_ran := true, error := some "Safety checkpoint failed",
          call_trace := [] } := by
    intro e p c ha
    have hmsg := safety_checkpoint_message_eq p c
    rw [ha] at hmsg
    simp only [booking_execution, ha, hmsg]
    simp
  have hdemo : (perform_safety_checkpoint demoPrefs80 demoCart80).approved = false := by
    rw [safety_checkpoint_approved_eq]
    norm_num [demoCart80, demoPrefs80, pyStrTruthy, pyBoolTruthy]
  refine ⟨?_, safety_checkpoint_not_approved_iff prefs cart,
    hblock env prefs cart, ?_, ?_, ?_, ?_, ?_, ?_⟩
  · by_cases h4 : automation_level = 4
    · subst h4
      rcases hap : (perform_safety_checkpoint prefs cart).approved <;>
        simp [booking_execution, hap]
    · simp [booking_execution, h4]
  · intro ha
    simp [booking_execution, ha]
  · intro h4
    simp [booking_execution, h4]
  · simp [hblock demoBookingEnv demoPrefs80 demoCart80 hdemo]
  · simp [hblock demoBookingEnv demoPrefs80 demoCart80 hdemo]
  · norm_num [booking_execution]
  · norm_num [booking_execution, bookingCalls, demoCart80]

/-- C2 counterexample to the unamended claim: with no destination set,
unverified travel documents and every other precondition satisfied, the
level-4 checkpoint approves and booking proceeds, although the claim says
unverified travel documents always block. -/
theorem C2_documents_check_counterexample :
    pyBoolTruthy demoPrefsNoDest.passport_verified = false ∧
    (perform_safety_checkpoint demoPrefsNoDest demoCartSmall).approved = true ∧
    (booking_execution demoBookingEnv 4 demoPrefsNoDest demoCartSmall).error =
      none ∧
    (booking_execution demoBookingEnv 4 demoPrefsNoDest demoCartSmall).call_trace
      ≠ [] := by
  have hap : (perform_safety_checkpoint demoPrefsNoDest demoCartSmall).approved =
      true := by
    rw [safety_checkpoint_approved_eq]
    norm_num [demoCartSmall, demoPrefsNoDest, pyStrTruthy, pyBoolTruthy] <;>
      decide
  have hexec : booking_execution demoBookingEnv 4 demoPrefsNoDest demoCartSmall =
      { checkpoint_ran := true, error := none,
        call_trace := bookingCalls demoBookingEnv 4 demoCartSmall } := by
    simp [booking_execution, hap]
  refine ⟨rfl, hap, ?_, ?_⟩ <;> rw [hexec]
  norm_num [bookingCalls, demoCartSmall]

/-! ## Helper lemmas about the heap and dict embedding -/

theorem lookup_cons {κ β : Type} [BEq κ] (k1 : κ) (v1 : β)
    (l : List (κ × β)) (k : κ) :
    ((k1, v1) :: l).lookup k = if k == k1 then some v1 else l.lookup k := by
  rcases hbe : k == k1 <;> simp [List.lookup, hbe]

theorem heap_read_write {α : Type} (h : Heap α) (r : Nat) (v : α) (r2 : Nat) :
    (h.write r v).read r2 =
      if r2 = r then (if (h.read r).isSome then some v else none)
      else h.read r2 := by
  rcases h with ⟨store, next⟩
  simp only [Heap.write, Heap.read]
  induction store with
  | nil =>
    by_cases h2 : r2 = r <;> simp [h2]
  | cons p ps ih =>
    rcases p with ⟨k, w⟩
    by_cases hk : k = r
    · subst hk
      by_cases h2 : r2 = k <;>
        simp_all [lookup_cons, beq_iff_eq]
    · by_cases h2 : r2 = k <;> by_cases h3 : r2 = r <;>
        simp_all [lookup_cons, beq_iff_eq, Ne.symm hk] <;>
        simp only [show List.lookup r ((k, w) :: ps) = List.lookup r ps from by
              rw [lookup_cons]; simp [beq_iff_eq, Ne.symm hk]]

theorem heap_read_alloc {α : Type} (h : Heap α) (v : α) (r2 : Nat) :
    (h.alloc v).1.read r2 = if r2 = h.next then some v else h.read r2 := by
  by_cases h2 : r2 = h.next <;>
    simp [Heap.alloc, Heap.read, lookup_cons, beq_iff_eq, h2]

theorem lookup_append_of_none {β : Type} (d1 d2 : List (String × β)) (k : String)
    (h : d1.lookup k = none) : (d1 ++ d2).lookup k = d2.lookup k := by
  induction d1 with
  | nil => simp
  | cons p ps ih =>
    rcases p with ⟨k1, v1⟩
    simp only [List.cons_append, lookup_cons] at h ⊢
    rcases hbe : (k == k1)
    · rw [hbe] at h
      simp only [Bool.false_eq_true, if_false] at h ⊢
      exact ih h
    · rw [hbe] at h
      simp at h

theorem lookup_dictErase_ne {β : Type} (d : List (String × β)) (k k2 : String)
    (h : k2 ≠ k) : (dictErase d k).lookup k2 = d.lookup k2 := by
  induction d with
  | nil => simp [dictErase]
  | cons p ps ih =>
    rcases p with ⟨k1, v1⟩
    by_cases h1 : k1 = k <;> by_cases h2 : k2 = k1 <;>
      simp_all [dictErase, List.filter_cons, lookup_cons, beq_iff_eq,
        bne_iff_ne]

theorem lookup_isSome_iff_mem_keys {β : Type} (d : List (String × β)) (k : String) :
    (d.lookup k).isSome = true ↔ k ∈ d.map (fun p => p.1) := by
  induction d with
  | nil => simp
  | cons p ps ih =>
    rcases p with ⟨k1, v1⟩
    by_cases h : k = k1 <;> simp_all [lookup_cons, beq_iff_eq]

theorem dictInsert_of_fresh {β : Type} (d : List (String × β)) (k : String) (v : β)
    (h : d.lookup k = none) : dictInsert d k v = d ++ [(k, v)] := by
  simp [dictInsert, h]

theorem heap_alloc_next {α : Type} (h : Heap α) (v : α) :
    (h.alloc v).1.next = h.next + 1 := rfl

theorem create_context_snapshot_spec {α : Type} [Inhabited α]
    (s : SessionState α) (label : Option String) (id : String) (ts : Nat)
    (hc : s.shopping_cart < s.heap.next) (ha : s.agent_status < s.heap.next)
    (hm : s.agent_communications < s.heap.next) :
    (create_context_snapshot s label id ts).2.snapshot_id = id ∧
    (create_context_snapshot s label id ts).2.user_preferences = s.heap.next ∧
    (create_context_snapshot s label id ts).2.shopping_cart = s.heap.next + 1 ∧
    (create_context_snapshot s label id ts).2.agent_status = s.heap.next + 2 ∧
    (create_context_snapshot s label id ts).2.agent_communications =
      s.heap.next + 3 ∧
    (create_context_snapshot s label id ts).1.heap.next = s.heap.next + 4 ∧
    (∀ r2, r2 < s.heap.next →
      (create_context_snapshot s label id ts).1.heap.read r2 = s.heap.read r2) ∧
    (create_context_snapshot s label id ts).1.heap.read s.heap.next =
      some ((s.heap.read s.user_preferences).getD default) ∧
    (create_context_snapshot s label id ts).1.heap.read (s.heap.next + 1) =
      some ((s.heap.read s.shopping_cart).getD default) ∧
    (create_context_snapshot s label id ts).1.heap.read (s.heap.next + 2) =
      some ((s.heap.read s.agent_status).getD default) ∧
    (create_context_snapshot s label id ts).1.heap.read (s.heap.next + 3) =
      some ((s.heap.read s.agent_communications).getD default) := by
  have hc3 : s.shopping_cart ≠ s.heap.next := Nat.ne_of_lt hc
  have ha3 : s.agent_status ≠ s.heap.next := Nat.ne_of_lt ha
  have ha4 : s.agent_status ≠ s.heap.next + 1 := by omega
  have hm3 : s.agent_communications ≠ s.heap.next := by omega
  have hm4 : s.agent_communications ≠ s.heap.next + 1 := by omega
  have hm5 : s.agent_communications ≠ s.heap.next + 2 := by omega
  have e2 : s.heap.next + 1 + 1 = s.heap.next + 2 := by omega
  have e3 : s.heap.next + 1 + 1 + 1 = s.heap.next + 3 := by omega
  refine ⟨rfl, rfl, rfl, rfl, rfl, rfl, ?_, ?_, ?_, ?_, ?_⟩
  · intro r2 hr2
    have n0 : r2 ≠ s.heap.next := by omega
    have n1 : r2 ≠ s.heap.next + 1 := by omega
    have n2 : r2 ≠ s.heap.next + 2 := by omega
    have n3 : r2 ≠ s.heap.next + 3 := by omega
    simp [create_context_snapshot, heap_read_alloc, heap_alloc_next, e2, e3,
      n0, n1, n2, n3]
  · have n1 : s.heap.next ≠ s.heap.next + 1 := by omega
    have n2 : s.heap.next ≠ s.heap.next + 2 := by omega
    have n3 : s.heap.next ≠ s.heap.next + 3 := by omega
    simp [create_context_snapshot, heap_read_alloc, heap_alloc_next, e2, e3,
      n1, n2, n3]
  · have n2 : s.heap.next + 1 ≠ s.heap.next + 2 := by omega
    have n3 : s.heap.next + 1 ≠ s.heap.next + 3 := by omega
    simp [create_context_snapshot, heap_read_alloc, heap_alloc_next, e2, e3,
      n2, n3, hc3]
  · have n3 : s.heap.next + 2 ≠ s.heap.next + 3 := by omega
    simp [create_context_snapshot, heap_read_alloc, heap_alloc_next, e2, e3,
      n3, ha3, ha4]
  · simp [create_context_snapshot, heap_read_alloc, heap_alloc_next, e2, e3,
      hm3, hm4, hm5]

theorem save_context_snapshot_components {α : Type} [Inhabited α]
    (s : SessionState α) (label : Option String) (id : String) (ts : Nat) :
    (save_context_snapshot s label id ts).heap =
      (create_context_snapshot s label id ts).1.heap ∧
    (save_context_snapshot s label id ts).user_preferences =
      s.user_preferences ∧
    (save_context_snapshot s label id ts).shopping_cart = s.shopping_cart ∧
    (save_context_snapshot s label id ts).agent_status = s.agent_status ∧
    (save_context_snapshot s label id ts).agent_communications =
      s.agent_communications := by
  refine ⟨?_, ?_, ?_, ?_, ?_⟩ <;>
    (simp only [save_context_snapshot]; split) <;>
    (try split) <;>
    rfl

theorem save_context_snapshot_lookup {α : Type} [Inhabited α]
    (s : SessionState α) (label : Option String) (id : String) (ts : Nat)
    (hfresh : s.context_snapshots.lookup id = none)
    (hfresh2 : ∀ e ∈ s.backtrack_history, e.snapshot_id ≠ id) :
    (save_context_snapshot s label id ts).context_snapshots.lookup id =
      some (create_context_snapshot s label id ts).2 := by
  have hC : (create_context_snapshot s label id ts).1.context_snapshots =
      s.context_snapshots := rfl
  have hH : (create_context_snapshot s label id ts).1.backtrack_history =
      s.backtrack_history := rfl
  have hid : (create_context_snapshot s label id ts).2.snapshot_id = id := rfl
  have hmain : (s.context_snapshots ++
      [(id, (create_context_snapshot s label id ts).2)]).lookup id =
      some (create_context_snapshot s label id ts).2 := by
    rw [lookup_append_of_none _ _ _ hfresh, lookup_cons]
    simp
  simp only [save_context_snapshot, hC, hH, hid,
    dictInsert_of_fresh _ _ _ hfresh]
  split
  case isFalse h => exact hmain
  case isTrue hlen =>
    split
    case h_1 heq0 => exact hmain
    case h_2 oldest rest heq =>
      rcases hhist : s.backtrack_history with _ | ⟨e0, t⟩
      · rw [hhist] at hlen
        simp at hlen
      · rw [hhist, List.cons_append] at heq
        injection heq with h1 h2
        have hne : id ≠ oldest.snapshot_id := by
          rw [← h1]
          exact Ne.symm (hfresh2 e0 (by rw [hhist]; exact List.mem_cons_self e0 t))
        split
        · rw [lookup_dictErase_ne _ _ _ hne]
          exact hmain
        · exact hmain

theorem mutate_three_read_other {α : Type} (s : SessionState α) (v1 v2 v3 : α)
    (r : Nat) (h1 : r ≠ s.user_preferences) (h2 : r ≠ s.shopping_cart)
    (h3 : r ≠ s.agent_status) :
    (mutate_three s v1 v2 v3).heap.read r = s.heap.read r := by
  simp [mutate_three, mutate_user_preferences, mutate_shopping_cart,
    mutate_agent_status, heap_read_write, h1, h2, h3]

theorem mutate_four_read_other {α : Type} (s : SessionState α) (v1 v2 v3 v4 : α)
    (r : Nat) (h1 : r ≠ s.user_preferences) (h2 : r ≠ s.shopping_cart)
    (h3 : r ≠ s.agent_status) (h4 : r ≠ s.agent_communications) :
    (mutate_four s v1 v2 v3 v4).heap.read r = s.heap.read r := by
  simp [mutate_four, mutate_three, mutate_user_preferences,
    mutate_shopping_cart, mutate_agent_status, mutate_agent_communications,
    heap_read_write, h1, h2, h3, h4]

/-! ## C5: snapshot round-trip -/

/-- C5: saving a snapshot of a well-formed session under a fresh id, then
arbitrarily mutating the live user_preferences, shopping_cart and
agent_status, then restoring that snapshot by id, succeeds and yields the
three components exactly as they were at save time. -/
theorem C5_snapshot_restore_roundtrip {α : Type} [Inhabited α]
    (s : SessionState α) (label : Option String) (id : String) (ts : Nat)
    (v1 v2 v3 : α)
    (hwf : session_wf s = true)
    (hfresh : s.context_snapshots.lookup id = none)
    (hfresh2 : ∀ e ∈ s.backtrack_history, e.snapshot_id ≠ id) :
    (restore_context_snapshot
        (mutate_three (save_context_snapshot s label id ts) v1 v2 v3) id).2 =
      true ∧
    (restore_context_snapshot
        (mutate_three (save_context_snapshot s label id ts) v1 v2 v3)
        id).1.heap.read
      (restore_context_snapshot
        (mutate_three (save_context_snapshot s label id ts) v1 v2 v3)
        id).1.user_preferences = s.heap.read s.user_preferences ∧
    (restore_context_snapshot
        (mutate_three (save_context_snapshot s label id ts) v1 v2 v3)
        id).1.heap.read
      (restore_context_snapshot
        (mutate_three (save_context_snapshot s label id ts) v1 v2 v3)
        id).1.shopping_cart = s.heap.read s.shopping_cart ∧
    (restore_context_snapshot
        (mutate_three (save_context_snapshot s label id ts) v1 v2 v3)
        id).1.heap.read
      (restore_context_snapshot
        (mutate_three (save_context_snapshot s label id ts) v1 v2 v3)
        id).1.agent_status = s.heap.read s.agent_status := by
  have hwfe := hwf
  simp only [session_wf, refWF, heapWF, Bool.and_eq_true, List.all_eq_true,
    decide_eq_true_eq] at hwfe
  obtain ⟨⟨⟨⟨⟨hheap, hprl, hprs⟩, hcrl, hcrs⟩, harl, hars⟩, hcml, hcms⟩,
    hsnaps⟩ := hwfe
  obtain ⟨hid, hsp, hsc, hsa, hsm, hnext, hother, hrp, hrc, hra, hrm⟩ :=
    create_context_snapshot_spec s label id ts hcrl harl hcml
  obtain ⟨hheapEq, hup, hsc2, hsa2, hsm2⟩ :=
    save_context_snapshot_components s label id ts
  have hlook := save_context_snapshot_lookup s label id ts hfresh hfresh2
  have hlook2 : (mutate_three (save_context_snapshot s label id ts) v1 v2
      v3).context_snapshots.lookup id =
      some (create_context_snapshot s label id ts).2 := hlook
  refine ⟨?_, ?_, ?_, ?_⟩
  · simp [restore_context_snapshot, hlook2]
  · simp only [restore_context_snapshot, hlook2]
    rw [hsp]
    rw [mutate_three_read_other (save_context_snapshot s label id ts) v1 v2 v3
      s.heap.next (by rw [hup]; omega) (by rw [hsc2]; omega)
      (by rw [hsa2]; omega)]
    rw [hheapEq, hrp]
    obtain ⟨vp, hvp⟩ := Option.isSome_iff_exists.mp hprs
    rw [hvp]
    simp
  · simp only [restore_context_snapshot, hlook2]
    rw [hsc]
    rw [mutate_three_read_other (save_context_snapshot s label id ts) v1 v2 v3
      (s.heap.next + 1) (by rw [hup]; omega) (by rw [hsc2]; omega)
      (by rw [hsa2]; omega)]
    rw [hheapEq, hrc]
    obtain ⟨vc, hvc⟩ := Option.isSome_iff_exists.mp hcrs
    rw [hvc]
    simp
  · simp only [restore_context_snapshot, hlook2]
    rw [hsa]
    rw [mutate_three_read_other (save_context_snapshot s label id ts) v1 v2 v3
      (s.heap.next + 2) (by rw [hup]; omega) (by rw [hsc2]; omega)
      (by rw [hsa2]; omega)]
    rw [hheapEq, hra]
    obtain ⟨va, hva⟩ := Option.isSome_iff_exists.mp hars
    rw [hva]
    simp

/-- Witness for C5 at the concrete demo session: save, mutate all three live
dicts, restore, and read back the save-time values. -/
theorem C5_snapshot_restore_roundtrip_witness :
    (restore_context_snapshot
        (mutate_three (save_context_snapshot demoSession none "snap-1" 0)
          99 98 97) "snap-1").2 = true ∧
    (restore_context_snapshot
        (mutate_three (save_context_snapshot demoSession none "snap-1" 0)
          99 98 97) "snap-1").1.heap.read
      (restore_context_snapshot
        (mutate_three (save_context_snapshot demoSession none "snap-1" 0)
          99 98 97) "snap-1").1.user_preferences =
      demoSession.heap.read demoSession.user_preferences ∧
    (restore_context_snapshot
        (mutate_three (save_context_snapshot demoSession none "snap-1" 0)
          99 98 97) "snap-1").1.heap.read
      (restore_context_snapshot
        (mutate_three (save_context_snapshot demoSession none "snap-1" 0)
          99 98 97) "snap-1").1.shopping_cart =
      demoSession.heap.read demoSession.shopping_cart ∧
    (restore_context_snapshot
        (mutate_three (save_context_snapshot demoSession none "snap-1" 0)
          99 98 97) "snap-1").1.heap.read
      (restore_context_snapshot
        (mutate_three (save_context_snapshot demoSession none "snap-1" 0)
          99 98 97) "snap-1").1.agent_status =
      demoSession.heap.read demoSession.agent_status :=
  C5_snapshot_restore_roundtrip demoSession none "snap-1" 0 99 98 97
    (by decide) (by decide) (by intro e he; simp [demoSession] at he)

/-! ## C9: snapshots as exclusive deep copies vs restore aliasing -/

/-- C9 (amended): a save takes an exclusive deep copy - after saving a
snapshot of a well-formed session under a fresh id, arbitrarily mutating all
four live dicts leaves the just-saved snapshot reading back exactly the
live values it copied at save time.  (A restore, by contrast, installs the
stored snapshot objects by reference, so after a restore the stored
snapshot is aliased to the live state - see the counterexample.) -/
theorem mutate_four_context_snapshots {α : Type} (s : SessionState α)
    (v1 v2 v3 v4 : α) :
    (mutate_four s v1 v2 v3 v4).context_snapshots = s.context_snapshots := rfl

set_option maxHeartbeats 1000000 in
theorem C9_save_exclusive_copy {α : Type} [Inhabited α]
    (s : SessionState α) (label : Option String) (id : String) (ts : Nat)
    (v1 v2 v3 v4 : α)
    (hwf : session_wf s = true)
    (hfresh : s.context_snapshots.lookup id = none)
    (hfresh2 : ∀ e ∈ s.backtrack_history, e.snapshot_id ≠ id) :
    ((mutate_four (save_context_snapshot s label id ts) v1 v2 v3
        v4).context_snapshots.lookup id).map
      (fun snap =>
        ((mutate_four (save_context_snapshot s label id ts) v1 v2 v3
            v4).heap.read snap.user_preferences,
         (mutate_four (save_context_snapshot s label id ts) v1 v2 v3
            v4).heap.read snap.shopping_cart,
         (mutate_four (save_context_snapshot s label id ts) v1 v2 v3
            v4).heap.read snap.agent_status,
         (mutate_four (save_context_snapshot s label id ts) v1 v2 v3
            v4).heap.read snap.agent_communications)) =
      some (s.heap.read s.user_preferences, s.heap.read s.shopping_cart,
            s.heap.read s.agent_status, s.heap.read s.agent_communications) := by
  have hwfe := hwf
  simp only [session_wf, refWF, heapWF, Bool.and_eq_true, List.all_eq_true,
    decide_eq_true_eq] at hwfe
  obtain ⟨⟨⟨⟨⟨hheap, hprl, hprs⟩, hcrl, hcrs⟩, harl, hars⟩, hcml, hcms⟩,
    hsnaps⟩ := hwfe
  obtain ⟨hid, hsp, hsc, hsa, hsm, hnext, hother, hrp, hrc, hra, hrm⟩ :=
    create_context_snapshot_spec s label id ts hcrl harl hcml
  obtain ⟨hheapEq, hup, hsc2, hsa2, hsm2⟩ :=
    save_context_snapshot_components s label id ts
  have hlook := save_context_snapshot_lookup s label id ts hfresh hfresh2
  have hlook2 : (mutate_four (save_context_snapshot s label id ts) v1 v2 v3
      v4).context_snapshots.lookup id =
      some (create_context_snapshot s label id ts).2 := by
    rw [mutate_four_context_snapshots]
    exact hlook
  have e1 : (mutate_four (save_context_snapshot s label id ts) v1 v2 v3
      v4).heap.read (create_context_snapshot s label id ts).2.user_preferences =
      s.heap.read s.user_preferences := by
    rw [hsp]
    rw [mutate_four_read_other _ v1 v2 v3 v4 _ (by rw [hup]; omega)
      (by rw [hsc2]; omega) (by rw [hsa2]; omega) (by rw [hsm2]; omega)]
    rw [hheapEq, hrp]
    obtain ⟨vp, hvp⟩ := Option.isSome_iff_exists.mp hprs
    rw [hvp]
    simp
  have e2 : (mutate_four (save_context_snapshot s label id ts) v1 v2 v3
      v4).heap.read (create_context_snapshot s label id ts).2.shopping_cart =
      s.heap.read s.shopping_cart := by
    rw [hsc]
    rw [mutate_four_read_other _ v1 v2 v3 v4 _ (by rw [hup]; omega)
      (by rw [hsc2]; omega) (by rw [hsa2]; omega) (by rw [hsm2]; omega)]
    rw [hheapEq, hrc]
    obtain ⟨vc, hvc⟩ := Option.isSome_iff_exists.mp hcrs
    rw [hvc]
    simp
  have e3 : (mutate_four (save_context_snapshot s label id ts) v1 v2 v3
      v4).heap.read (create_context_snapshot s label id ts).2.agent_status =
      s.heap.read s.agent_status := by
    rw [hsa]
    rw [mutate_four_read_other _ v1 v2 v3 v4 _ (by rw [hup]; omega)
      (by rw [hsc2]; omega) (by rw [hsa2]; omega) (by rw [hsm2]; omega)]
    rw [hheapEq, hra]
    obtain ⟨va, hva⟩ := Option.isSome_iff_exists.mp hars
    rw [hva]
    simp
  have e4 : (mutate_four (save_context_snapshot s label id ts) v1 v2 v3
      v4).heap.read
      (create_context_snapshot s label id ts).2.agent_communications =
      s.heap.read s.agent_communications := by
    rw [hsm]
    rw [mutate_four_read_other _ v1 v2 v3 v4 _ (by rw [hup]; omega)
      (by rw [hsc2]; omega) (by rw [hsa2]; omega) (by rw [hsm2]; omega)]
    rw [hheapEq, hrm]
    obtain ⟨vm, hvm⟩ := Option.isSome_iff_exists.mp hcms
    rw [hvm]
    simp
  rw [hlook2]
  simp [e1, e2, e3, e4]

/-- Witness for the amended C9 at the concrete demo session. -/
theorem C9_save_exclusive_copy_witness :
    ((mutate_four (save_context_snapshot demoSession none "snap-9" 0) 91 92 93
        94).context_snapshots.lookup "snap-9").map
      (fun snap =>
        ((mutate_four (save_context_snapshot demoSession none "snap-9" 0) 91 92
            93 94).heap.read snap.user_preferences,
         (mutate_four (save_context_snapshot demoSession none "snap-9" 0) 91 92
            93 94).heap.read snap.shopping_cart,
         (mutate_four (save_context_snapshot demoSession none "snap-9" 0) 91 92
            93 94).heap.read snap.agent_status,
         (mutate_four (save_context_snapshot demoSession none "snap-9" 0) 91 92
            93 94).heap.read snap.agent_communications)) =
      some (demoSession.heap.read demoSession.user_preferences,
            demoSession.heap.read demoSession.shopping_cart,
            demoSession.heap.read demoSession.agent_status,
            demoSession.heap.read demoSession.agent_communications) :=
  C9_save_exclusive_copy demoSession none "snap-9" 0 91 92 93 94
    (by decide) (by decide) (by intro e he; simp [demoSession] at he)

/-- C9 counterexample to the unamended claim: after a restore the stored
snapshot is aliased to the live state, so an in-place mutation of the live
user_preferences (to 99) changes the stored snapshot, which had copied the
value 10 at save time. -/
theorem C9_restore_aliasing_counterexample :
    demoSession.heap.read demoSession.user_preferences = some 10 ∧
    (((mutate_user_preferences
        (restore_context_snapshot
          (save_context_snapshot demoSession none "snap-a" 0) "snap-a").1
        99).context_snapshots.lookup "snap-a").map
      (fun snap =>
        (mutate_user_preferences
          (restore_context_snapshot
            (save_context_snapshot demoSession none "snap-a" 0) "snap-a").1
          99).heap.read snap.user_preferences)) = some (some 99) := by
  decide

/-! ## C4: the backtrack-history / snapshot-map invariant -/

theorem mem_keys_dictErase {β : Type} (d : List (String × β)) (k x : String) :
    x ∈ (dictErase d k).map (fun p => p.1) ↔
      x ∈ d.map (fun p => p.1) ∧ x ≠ k := by
  induction d with
  | nil => simp [dictErase]
  | cons p ps ih =>
    rcases p with ⟨k1, v1⟩
    by_cases h1 : k1 = k <;> by_cases h2 : x = k1 <;>
      simp_all [dictErase, List.filter_cons, bne_iff_ne]

theorem nodup_keys_dictErase {β : Type} (d : List (String × β)) (k : String)
    (h : (d.map (fun p => p.1)).Nodup) :
    ((dictErase d k).map (fun p => p.1)).Nodup :=
  h.sublist (List.Sublist.map _ (List.filter_sublist d))

/-- C4: saving preserves the backtracking invariant - bounded history,
distinct ids, history ids in bijection with snapshot-map keys - for every
well-formed starting point and fresh id; the invariant holds of the initial
session; and from a fresh session the 11th save evicts the first snapshot
from both the history and the map together, leaving exactly the last 10
ids. -/
theorem C4_backtrack_history_invariant :
    (∀ (α : Type) [Inhabited α] (s : SessionState α) (label : Option String)
        (id : String) (ts : Nat),
      snapshot_invariant s → s.context_snapshots.lookup id = none →
      snapshot_invariant (save_context_snapshot s label id ts)) ∧
    snapshot_invariant demoSession ∧
    (saveManyDemo elevenIds).backtrack_history.length = 10 ∧
    (saveManyDemo elevenIds).context_snapshots.lookup "s01" = none ∧
    ((saveManyDemo (List.take 10 elevenIds)).context_snapshots.lookup
      "s01").isSome = true ∧
    ((saveManyDemo elevenIds).backtrack_history.map
      (fun e => e.snapshot_id)) =
      ["s02", "s03", "s04", "s05", "s06", "s07", "s08", "s09", "s10",
       "s11"] ∧
    ((saveManyDemo elevenIds).context_snapshots.map (fun p => p.1)) =
      ["s02", "s03", "s04", "s05", "s06", "s07", "s08", "s09", "s10",
       "s11"] := by
  refine ⟨?_, ?_, ?_, ?_, ?_, ?_, ?_⟩
  · intro α _ s label id ts hinv hfresh
    obtain ⟨hlen, hndH, hndK, hiff⟩ := hinv
    have hidK : id ∉ s.context_snapshots.map (fun p => p.1) := by
      intro hmem
      have h2 := (lookup_isSome_iff_mem_keys s.context_snapshots id).mpr hmem
      rw [hfresh] at h2
      simp at h2
    have hidH : id ∉ s.backtrack_history.map (fun e => e.snapshot_id) :=
      fun hmem => hidK ((hiff id).mp hmem)
    have hC : (create_context_snapshot s label id ts).1.context_snapshots =
        s.context_snapshots := rfl
    have hH : (create_context_snapshot s label id ts).1.backtrack_history =
        s.backtrack_history := rfl
    have hid : (create_context_snapshot s label id ts).2.snapshot_id = id :=
      rfl
    simp only [save_context_snapshot, hC, hH, hid,
      dictInsert_of_fresh _ _ _ hfresh]
    split
    case isFalse hlen2 =>
      refine ⟨?_, ?_, ?_, ?_⟩
      · simp only [List.length_append, List.length_cons, List.length_nil,
          List.length_append] at hlen2 ⊢
        omega
      · simp [List.map_append, List.nodup_append, hndH, hidH]
      · simp [List.map_append, List.nodup_append, hndK, hidK]
      · intro x
        have hx := hiff x
        simp only [List.map_append, List.mem_append, List.map_cons,
          List.mem_cons, List.map_nil, List.mem_singleton]
        tauto
    case isTrue hlen2 =>
      split
      case h_1 heq0 =>
        exfalso
        simp at heq0
      case h_2 oldest rest heq =>
        rcases hhist : s.backtrack_history with _ | ⟨e0, t⟩
        · rw [hhist] at hlen2
          simp at hlen2
        · rw [hhist, List.cons_append] at heq
          injection heq with h1 h2
          subst h1
          subst h2
          have he0H : e0.snapshot_id ∈
              s.backtrack_history.map (fun e => e.snapshot_id) := by
            rw [hhist]
            simp
          have he0K : e0.snapshot_id ∈
              s.context_snapshots.map (fun p => p.1) :=
            (hiff e0.snapshot_id).mp he0H
          have hne : id ≠ e0.snapshot_id := by
            intro hcon
            rw [← hcon] at he0H
            exact hidH he0H
          have hsome : ((s.context_snapshots ++
              [(id, (create_context_snapshot s label id ts).2)]).lookup
                e0.snapshot_id).isSome = true := by
            rw [lookup_isSome_iff_mem_keys]
            simp only [List.map_append, List.mem_append]
            exact Or.inl he0K
          rw [if_pos hsome]
          have hndH2 := hndH
          rw [hhist] at hndH2
          simp only [List.map_cons, List.nodup_cons] at hndH2
          obtain ⟨he0t, hndt⟩ := hndH2
          have hlen3 := hlen
          rw [hhist] at hlen3
          refine ⟨?_, ?_, ?_, ?_⟩
          · simp only [List.length_append, List.length_cons,
              List.length_nil] at hlen3 ⊢
            omega
          · have hidt : id ∉ t.map (fun e => e.snapshot_id) := by
              intro hmem
              apply hidH
              rw [hhist]
              simp [hmem]
            simp [List.map_append, List.nodup_append, hndt, hidt]
          · exact nodup_keys_dictErase _ _
              (by simp [List.map_append, List.nodup_append, hndK, hidK])
          · intro x
            have hx := hiff x
            rw [hhist] at hx
            simp only [List.map_cons, List.mem_cons] at hx
            simp only [List.map_append, List.mem_append, List.map_cons,
              List.mem_cons, List.map_nil, List.mem_singleton,
              mem_keys_dictErase]
            constructor
            · rintro (hxt | hxid | hnil)
              · have hxH : x ∈ s.context_snapshots.map (fun p => p.1) :=
                  hx.mp (Or.inr hxt)
                refine ⟨Or.inl hxH, ?_⟩
                intro hcon
                rw [hcon] at hxt
                exact he0t hxt
              · exact ⟨Or.inr (Or.inl hxid),
                  fun hcon => hne (hxid.symm.trans hcon)⟩
              · exact absurd hnil (List.not_mem_nil x)
            · rintro ⟨hxk | hxid | hnil, hxne⟩
              · rcases hx.mpr hxk with hxe0 | hxt
                · exact absurd hxe0 hxne
                · exact Or.inl hxt
              · exact Or.inr (Or.inl hxid)
              · exact absurd hnil (List.not_mem_nil x)
  · refine ⟨by decide, by decide, by decide, ?_⟩
    intro x
    simp [demoSession]
  · decide
  · decide
  · decide
  · decide
  · decide

/-! ## C6: the combination generator -/

theorem length_flatMap_map {α β γ : Type} (l : List α) (m : List β)
    (g : α → β → γ) :
    (l.flatMap (fun a => m.map (g a))).length = l.length * m.length := by
  induction l with
  | nil => simp
  | cons a as ih =>
    simp only [List.flatMap_cons, List.length_append, List.length_map, ih,
      List.length_cons]
    ring

theorem greedySelectActivities_spec (rb : Rat) :
    ∀ (rest selected : List POActivity) (total : Rat),
      selected.length < 3 →
      total = (selected.map (fun a => a.price.getD 0)).sum →
      (selected = [] ∨ total ≤ rb) →
      (greedySelectActivities rb rest selected total).length ≤ 3 ∧
      (greedySelectActivities rb rest selected total ≠ [] →
        ((greedySelectActivities rb rest selected total).map
          (fun a => a.price.getD 0)).sum ≤ rb) := by
  intro rest
  induction rest with
  | nil =>
    intro selected total hlen hsum hok
    constructor
    · simpa [greedySelectActivities] using Nat.le_of_lt hlen
    · intro hne
      rcases hok with hemp | hle
      · simp [greedySelectActivities, hemp] at hne
      · simpa [greedySelectActivities, ← hsum] using hle
  | cons a rest ih =>
    intro selected total hlen hsum hok
    simp only [greedySelectActivities]
    split
    case isTrue hfit =>
      split
      case isTrue hlen2 =>
        constructor
        · simp only [List.length_append, List.length_cons, List.length_nil]
          omega
        · intro hne
          rw [List.map_append, List.sum_append]
          simp only [List.map_cons, List.map_nil, List.sum_cons,
            List.sum_nil, add_zero]
          rw [← hsum]
          exact hfit
      case isFalse hlen2 =>
        apply ih
        · simp only [List.length_append, List.length_cons,
            List.length_nil] at hlen2 ⊢
          omega
        · rw [List.map_append, List.sum_append]
          simp [hsum]
        · exact Or.inr hfit
    case isFalse hfit =>
      exact ih selected total hlen hsum hok

theorem select_best_activities_spec (hotel : POHotel)
    (activities : List POActivity) (budget : Rat) :
    (select_best_activities_for_combination hotel activities budget).length
      ≤ 3 ∧
    (0 ≤ budget →
      ((select_best_activities_for_combination hotel activities budget).map
        (fun a => a.price.getD 0)).sum ≤ budget * 0.2) := by
  unfold select_best_activities_for_combination
  split
  · constructor
    · simp
    · intro hb
      simp only [List.map_nil, List.sum_nil]
      have : (0 : Rat) ≤ budget * 0.2 := mul_nonneg hb (by norm_num)
      linarith
  · have h := greedySelectActivities_spec (budget * 0.2)
      (pySort nearbySortLe
        (activities.filterMap (fun activity =>
          if distSq hotel.location activity.location ≤ 625 then
            some { activity with
              distance_to_hotel_sq :=
                some (distSq hotel.location activity.location) }
          else none)))
      [] 0 (by simp) (by simp) (Or.inl rfl)
    constructor
    · exact h.1
    · intro hb
      by_cases hne : greedySelectActivities (budget * 0.2)
          (pySort nearbySortLe
            (activities.filterMap (fun activity =>
              if distSq hotel.location activity.location ≤ 625 then
                some { activity with
                  distance_to_hotel_sq :=
                    some (distSq hotel.location activity.location) }
              else none)))
          [] 0 = []
      · rw [hne]
        simp only [List.map_nil, List.sum_nil]
        have : (0 : Rat) ≤ budget * 0.2 := mul_nonneg hb (by norm_num)
        linarith
      · exact h.2 hne

theorem combSortLe_total (a b : Combination) :
    combSortLe a b = true ∨ combSortLe b a = true := by
  simp only [combSortLe, decide_eq_true_eq]
  rcases lt_trichotomy a.compatibility_score b.compatibility_score with
    h | h | h
  · right
    left
    exact h
  · rcases le_total a.total_cost b.total_cost with h2 | h2
    · left
      exact Or.inr ⟨h.symm, h2⟩
    · right
      exact Or.inr ⟨h, h2⟩
  · left
    left
    exact h

theorem combSortLe_trans (a b c : Combination) (h1 : combSortLe a b = true)
    (h2 : combSortLe b c = true) : combSortLe a c = true := by
  simp only [combSortLe, decide_eq_true_eq] at h1 h2 ⊢
  rcases h1 with h1 | ⟨h1e, h1le⟩ <;> rcases h2 with h2 | ⟨h2e, h2le⟩
  · left
    linarith
  · left
    linarith [h2e.le, h2e.ge]
  · left
    linarith [h1e.le, h1e.ge]
  · right
    exact ⟨h2e.trans h1e, le_trans h1le h2le⟩

/-- C6: the combination generator pairs only the top-3 flights with the
top-3 hotels (at most 9 pairs); every returned combination has a
compatibility score of at most 1, carries at most 3 activities whose summed
price fits in the 20% activity budget, and totals exactly flight price plus
hotel price plus the selected activity prices; and the returned list has at
most 5 entries sorted by compatibility descending with ties broken by total
cost ascending. -/
theorem C6_combination_generator (flights : List POFlight)
    (hotels : List POHotel) (activities : List POActivity) (budget : Rat) :
    (generate_optimal_combinations flights hotels activities budget).length
      ≤ 5 ∧
    (all_combinations flights hotels activities budget).length =
      (flights.take 3).length * (hotels.take 3).length ∧
    (all_combinations flights hotels activities budget).length ≤ 9 ∧
    (∀ c ∈ all_combinations flights hotels activities budget,
      c.flight ∈ flights.take 3 ∧ c.hotel ∈ hotels.take 3) ∧
    (∀ c ∈ generate_optimal_combinations flights hotels activities budget,
      c.compatibility_score ≤ 1 ∧
      c.activities.length ≤ 3 ∧
      (0 ≤ budget →
        (c.activities.map (fun a => a.price.getD 0)).sum ≤ budget * 0.2) ∧
      c.total_cost = c.flight.price.getD 0 + c.hotel.hotelPrice +
        (c.activities.map (fun a => a.price.getD 0)).sum) ∧
    (generate_optimal_combinations flights hotels activities
        budget).Pairwise
      (fun a b => b.compatibility_score < a.compatibility_score ∨
        (b.compatibility_score = a.compatibility_score ∧
          a.total_cost ≤ b.total_cost)) := by
  have hlenall : (all_combinations flights hotels activities budget).length =
      (flights.take 3).length * (hotels.take 3).length := by
    unfold all_combinations
    exact length_flatMap_map _ _ _
  have hchar : ∀ c ∈ all_combinations flights hotels activities budget,
      c.flight ∈ flights.take 3 ∧ c.hotel ∈ hotels.take 3 ∧
      c.compatibility_score ≤ 1 ∧ c.activities.length ≤ 3 ∧
      (0 ≤ budget →
        (c.activities.map (fun a => a.price.getD 0)).sum ≤ budget * 0.2) ∧
      c.total_cost = c.flight.price.getD 0 + c.hotel.hotelPrice +
        (c.activities.map (fun a => a.price.getD 0)).sum := by
    intro c hc
    simp only [all_combinations, List.mem_flatMap, List.mem_map] at hc
    obtain ⟨f, hf, h, hh, rfl⟩ := hc
    refine ⟨hf, hh, ?_, ?_, ?_, rfl⟩
    · show calculate_compatibility f h budget ≤ 1
      unfold calculate_compatibility
      exact min_le_right _ _
    · exact (select_best_activities_spec h (activities.take 5) budget).1
    · exact (select_best_activities_spec h (activities.take 5) budget).2
  have hmemgen : ∀ c ∈ generate_optimal_combinations flights hotels
      activities budget, c ∈ all_combinations flights hotels activities
      budget := by
    intro c hc
    unfold generate_optimal_combinations at hc
    exact (mem_pySort combSortLe c _).mp (List.mem_of_mem_take hc)
  refine ⟨?_, hlenall, ?_, ?_, ?_, ?_⟩
  · unfold generate_optimal_combinations
    exact List.length_take_le 5 _
  · rw [hlenall]
    have h1 : (flights.take 3).length ≤ 3 := List.length_take_le 3 _
    have h2 : (hotels.take 3).length ≤ 3 := List.length_take_le 3 _
    calc (flights.take 3).length * (hotels.take 3).length ≤ 3 * 3 :=
          Nat.mul_le_mul h1 h2
      _ ≤ 9 := by norm_num
  · intro c hc
    exact ⟨(hchar c hc).1, (hchar c hc).2.1⟩
  · intro c hc
    have h := hchar c (hmemgen c hc)
    exact ⟨h.2.2.1, h.2.2.2.1, h.2.2.2.2.1, h.2.2.2.2.2⟩
  · have hp := pairwise_pySort combSortLe combSortLe_trans combSortLe_total
      (all_combinations flights hotels activities budget)
    have hp2 : (generate_optimal_combinations flights hotels activities
        budget).Pairwise (fun a b => combSortLe a b = true) := by
      unfold generate_optimal_combinations
      exact List.Pairwise.sublist (List.take_sublist 5 _) hp
    refine hp2.imp ?_
    intro a b hab
    simpa [combSortLe, decide_eq_true_eq] using hab

/-! ## C7: the cross-agent filter stages -/

theorem hotelFilterStep_fst (aa at2 : String) (hb : Rat) (h : POHotel) :
    (hotelFilterStep aa at2 hb h).1 = h ∨
      (hotelFilterStep aa at2 hb h).1 =
        { h with arrival_compatible := some true } := by
  unfold hotelFilterStep
  split
  · exact Or.inl rfl
  · dsimp only
    split <;> split <;> first | exact Or.inl rfl | exact Or.inr rfl

/-- C7 (amended): every filter stage caps its output - at most 5 flights, 5
hotels and 10 activities; the flight and activity stages are pure reads of
their inputs; the hotel stage preserves the input list's length and order
and changes each input hotel at most by setting its arrival_compatible flag
(the in-place annotation the unamended claim rules out, see the
counterexample). -/
theorem C7_filter_pipeline_caps (flights : List POFlight)
    (hotels : List POHotel) (activities : List POActivity)
    (preferences : POPrefs) (budget : Rat) :
    (filter_flights_by_preferences flights preferences budget).length ≤ 5 ∧
    (filter_hotels_by_flight_context hotels flights preferences).1.length
      ≤ 5 ∧
    (filter_activities_by_location_context activities hotels
      preferences).length ≤ 10 ∧
    (filter_hotels_by_flight_context hotels flights preferences).2.length =
      hotels.length ∧
    List.Forall₂
      (fun pre post => post = pre ∨
        post = { pre with arrival_compatible := some true })
      hotels (filter_hotels_by_flight_context hotels flights
        preferences).2 := by
  refine ⟨?_, ?_, ?_, ?_, ?_⟩
  · unfold filter_flights_by_preferences
    split
    · simp
    · exact List.length_take_le 5 _
  · unfold filter_hotels_by_flight_context
    split
    · exact List.length_take_le 5 _
    · split
      · exact List.length_take_le 5 _
      · exact List.length_take_le 5 _
  · unfold filter_activities_by_location_context
    split
    · simp
    · exact List.length_take_le 10 _
  · unfold filter_hotels_by_flight_context
    split
    · rfl
    · split
      · rfl
      · simp
  · unfold filter_hotels_by_flight_context
    split
    · exact List.forall₂_same.mpr (fun x _ => Or.inl rfl)
    · split
      · exact List.forall₂_same.mpr (fun x _ => Or.inl rfl)
      · rw [List.forall₂_map_right_iff, List.forall₂_map_right_iff]
        refine List.forall₂_same.mpr (fun x _ => ?_)
        exact hotelFilterStep_fst _ _ _ x

/-- C7 counterexample to the unamended claim: the hotel filter stage mutates
an input hotel in place, setting arrival_compatible when the best flight
arrives after the hotel's check-in time; the input list read back after the
call differs from what was passed in. -/
theorem C7_hotel_filter_mutation_counterexample :
    (filter_hotels_by_flight_context [demoHotelCx] [demoFlightCx]
      demoPOPrefs).2 ≠ [demoHotelCx] ∧
    (filter_hotels_by_flight_context [demoHotelCx] [demoFlightCx]
        demoPOPrefs).2.map (fun h => h.arrival_compatible) = [some true] ∧
    demoHotelCx.arrival_compatible = none := by
  have hstep : (filter_hotels_by_flight_context [demoHotelCx] [demoFlightCx]
      demoPOPrefs).2 = [{ demoHotelCx with arrival_compatible := some true }] := by
    have hcv : ('5' : Char).val < ('8' : Char).val := by decide
    have hse : ¬ ("18:00" : String) = "" := by decide
    unfold filter_hotels_by_flight_context hotelFilterStep
    norm_num [demoHotelCx, demoFlightCx, demoPOPrefs, POHotel.hotelPrice,
      pyStrLt, pyStrLtChars, hcv, hse]
  refine ⟨?_, ?_, rfl⟩
  · rw [hstep]
    intro hcon
    have h2 := List.head_eq_of_cons_eq hcon
    have h3 := congrArg (fun h => h.arrival_compatible) h2
    simp [demoHotelCx] at h3
  · rw [hstep]
    rfl
